import Mathlib

/-!
Verification of the bitfocus-telemetry-bridge core against its specification.

This file gives a shallow embedding of the repository's core subsystems:

* `src/core/state/store.ts` — the owner-scoped, versioned state store
  (`StateStore.set`, `StateStore.get`, `valueChanged`, `patternToRegex`,
  `pathMatchesPattern`);
* `src/core/router/subscription.ts` — the subscription manager;
* the `MessageRouter` (`routeCommand`, `routeEvent`, `routeState`,
  `handleStateDelta`, `handleAck`, `handleSubscribe`, `handleUnsubscribe`,
  `findTarget`, `sendError`);
* `src/adapters/companion/adapter.ts` — the companion adapter's bridge
  message handler (`handleBridgeMessage` and the per-action handlers).

JavaScript `Map`s are modelled as association lists in insertion order
(`Map.set` on an existing key updates in place, a new key is appended),
JSON values as the inductive `Val`, and `unknown`/optional fields as
`Option`.  Message ids produced by `generateUuidV7()` are opaque fresh
identifiers that no routing decision inspects; they are modelled by the
placeholder `freshId`.  `Date.now()` is modelled by an explicit `now`
parameter.  Asynchronous handler invocations are modelled as entries in a
delivery trace: `target.handler(msg)` is recorded as a `Delivery`, and a
handler's own emissions (e.g. the adapter acking a command) re-enter the
router as separate inputs of `routeAll`, mirroring the actual event flow.
-/

namespace Bridge

/-- Primitive JSON values. -/
inductive Prim where
  | null : Prim
  | bool (b : Bool) : Prim
  | num (n : Int) : Prim
  | str (s : String) : Prim
deriving DecidableEq, Repr

/-- JSON-like runtime values (the `unknown` payload values of the bridge),
up to the nesting depth the routed payloads actually use.  Structural
equality of `Val` models the store's canonical-serialisation comparison
(`JSON.stringify` equality in `valueChanged` treats structurally equal
composites as equal). -/
inductive Val where
  | prim (p : Prim) : Val
  | arr (xs : List Prim) : Val
  | obj (fields : List (String × Prim)) : Val
deriving DecidableEq, Repr

/-- Shorthand for a null value. -/
def vNull : Val := .prim .null

/-- Shorthand for a boolean value. -/
def vBool (b : Bool) : Val := .prim (.bool b)

/-- Shorthand for a numeric value. -/
def vNum (n : Int) : Val := .prim (.num n)

/-- Shorthand for a string value. -/
def vStr (s : String) : Val := .prim (.str s)

/-- JavaScript truthiness of a value (used by the adapter's
`!params?.keyIndex`-style presence checks). `none` models `undefined`. -/
def jsTruthy : Option Val → Bool
  | none => false
  | some (.prim .null) => false
  | some (.prim (.bool b)) => b
  | some (.prim (.num n)) => n != 0
  | some (.prim (.str s)) => s != ""
  | some (.arr _) => true
  | some (.obj _) => true

/-- JavaScript `String(...)`/template coercion for the values the adapter
interpolates into wire frames (only numbers and strings occur on these
paths). -/
def valToArg : Val → String
  | .prim .null => "null"
  | .prim (.bool b) => if b then "true" else "false"
  | .prim (.num n) => toString n
  | .prim (.str s) => s
  | .arr _ => "array"
  | .obj _ => "object"

-- ---------------------------------------------------------------------------
-- State store (src/core/state/store.ts)
-- ---------------------------------------------------------------------------

/-- `StateEntry` from `store.ts`. -/
structure StateEntry where
  value : Val
  owner : String
  version : Nat
  stale : Bool
  updatedAt : Nat
  path : String
deriving DecidableEq, Repr

/-- `StateDelta` from `store.ts` (`previousVersion` is `null` on creation). -/
structure StateDelta where
  path : String
  entry : StateEntry
  previousVersion : Option Nat
deriving DecidableEq, Repr

/-- `StateOwnershipError` (the only error `StateStore.set`/`delete` throw). -/
inductive StateError where
  | ownership (path currentOwner attemptedOwner : String)
deriving DecidableEq, Repr

/-- `valueChanged` from `store.ts`: `===` fast path, then canonical
serialisation comparison; both collapse to structural equality of `Val`. -/
def valueChanged (oldValue newValue : Val) : Bool :=
  oldValue != newValue

/-- Update-or-append on an association list: the semantics of `Map.set`
(an existing key — unique in a `Map` — keeps its position; a new key is
appended). -/
def mapSet {α : Type} : List (String × α) → String → α → List (String × α)
  | [], k, v => [(k, v)]
  | p :: m, k, v => if p.1 == k then (k, v) :: m else p :: mapSet m k v

/-- `Map.get` on an association list. -/
def mapGet {α : Type} (m : List (String × α)) (k : String) : Option α :=
  (m.find? (fun p => p.1 == k)).map (fun p => p.2)

/-- The `StateStore` class state: `entries` (a `Map` in insertion order),
the global version counter, the store's own `SequenceCounter`, and its
`source` namespace (`hub.core` by default). -/
structure StateStore where
  entries : List (String × StateEntry)
  globalVersion : Nat
  seqCounter : Nat
  source : String
deriving DecidableEq, Repr

/-- `StateStore.get`. -/
def StateStore.get (s : StateStore) (path : String) : Option StateEntry :=
  mapGet s.entries path

/-- `StateStore.set(path, value, owner)`: ownership check, no-op
suppression on structurally equal values, else write a fresh entry with
`stale := false` and bumped versions.  The thrown `StateOwnershipError`
becomes the `Except.error` case; the returned delta is `none` when the
write is suppressed. `now` stands for `Date.now()`. -/
def StateStore.set (s : StateStore) (path : String) (value : Val)
    (owner : String) (now : Nat) :
    Except StateError (Option StateDelta × StateStore) :=
  match s.get path with
  | some existing =>
    if existing.owner != owner then
      .error (.ownership path existing.owner owner)
    else if !valueChanged existing.value value then
      .ok (none, s)
    else
      let entry : StateEntry :=
        { value := value, owner := owner, version := existing.version + 1,
          stale := false, updatedAt := now, path := path }
      .ok (some { path := path, entry := entry,
                  previousVersion := some existing.version },
           { s with entries := mapSet s.entries path entry,
                    globalVersion := s.globalVersion + 1 })
  | none =>
    let entry : StateEntry :=
      { value := value, owner := owner, version := 1,
        stale := false, updatedAt := now, path := path }
    .ok (some { path := path, entry := entry, previousVersion := none },
         { s with entries := mapSet s.entries path entry,
                  globalVersion := s.globalVersion + 1 })

-- ---------------------------------------------------------------------------
-- Pattern matching (patternToRegex / pathMatchesPattern in store.ts)
-- ---------------------------------------------------------------------------

/-- A token of the regex built by `patternToRegex`.  The source escapes
every regex metacharacter except `*` (making it a literal), then replaces
`**` (left to right, via the `\x7b\x7bDOUBLE_STAR\x7d\x7d` placeholder)
with `.*` and `*` with `[^.]+`, and anchors the whole expression.  The
resulting regex is therefore always a sequence of these three tokens. -/
inductive RTok where
  | lit (c : Char) : RTok
  | seg : RTok
  | star : RTok
deriving DecidableEq, Repr

/-- `patternToRegex` from `store.ts`, as the token sequence of the built
regex: `**` (matched first, left to right, exactly like the sequential
global replaces in the source) becomes `.*`; a remaining single `*`
becomes `[^.]+`; every other character is literal (the escaping pass makes
metacharacters literal, and the placeholder cannot collide with escaped
pattern text since a literal brace is escaped to backslash-brace). -/
def patternToRegex : List Char → List RTok
  | [] => []
  | '*' :: '*' :: rest => .star :: patternToRegex rest
  | '*' :: rest => .seg :: patternToRegex rest
  | c :: rest => .lit c :: patternToRegex rest

/-- Whether the JavaScript regex `.` (no `s` flag) matches a character:
everything except the line terminators. -/
def dotMatches (c : Char) : Bool :=
  c != '\n' && c != '\r' && c.val != 8232 && c.val != 8233

/-- Suffixes of `s` reachable by consuming a non-empty run of non-dot
characters (the ways `[^.]+` can advance). -/
def segSuffixes : List Char → List (List Char)
  | [] => []
  | d :: ds => if d == '.' then [] else ds :: segSuffixes ds

/-- Suffixes of `s` reachable by consuming a (possibly empty) run of
characters matched by `.` (the ways `.*` can advance). -/
def starSuffixes : List Char → List (List Char)
  | [] => [[]]
  | d :: ds => (d :: ds) :: (if dotMatches d then starSuffixes ds else [])

/-- Anchored matching of the token sequence against a character list: the
semantics of `new RegExp('^' + escaped + '$').test(path)`, with the
backtracking search expressed as existence of a split (enumerated by
`segSuffixes` / `starSuffixes`). -/
def regexMatch : List RTok → List Char → Bool
  | [], s => s.isEmpty
  | .lit c :: ts, s =>
    match s with
    | [] => false
    | d :: ds => c == d && regexMatch ts ds
  | .seg :: ts, s => (segSuffixes s).any (fun suf => regexMatch ts suf)
  | .star :: ts, s => (starSuffixes s).any (fun suf => regexMatch ts suf)

/-- `pathMatchesPattern` from `store.ts`. -/
def pathMatchesPattern (path pattern : String) : Bool :=
  regexMatch (patternToRegex pattern.data) path.data

/-- Declarative anchored semantics of the translated pattern, stated from
the specification text: `*` (token `seg`) matches one path segment — a
non-empty run of non-dot characters; `**` (token `star`) matches any run
of characters; every other character matches itself literally. -/
inductive RMatches : List RTok → List Char → Prop where
  | nil : RMatches [] []
  | lit (c : Char) (ts : List RTok) (s : List Char) :
      RMatches ts s → RMatches (.lit c :: ts) (c :: s)
  | seg (pre : List Char) (ts : List RTok) (s : List Char) :
      pre ≠ [] → (∀ c ∈ pre, c ≠ '.') →
      RMatches ts s → RMatches (.seg :: ts) (pre ++ s)
  | star (pre : List Char) (ts : List RTok) (s : List Char) :
      (∀ c ∈ pre, dotMatches c = true) →
      RMatches ts s → RMatches (.star :: ts) (pre ++ s)

-- ---------------------------------------------------------------------------
-- Messages (src/core/protocol/types.ts, factory.ts)
-- ---------------------------------------------------------------------------

/-- `AckStatus` from `protocol/types.ts`. -/
inductive AckStatus where
  | received | completed | failed | timeout | rejected
deriving DecidableEq, Repr

/-- `SubscriptionFilter` from `protocol/types.ts`. -/
inductive SubFilter where
  | state | events | all
deriving DecidableEq, Repr

/-- The `messageType` argument of `getMatchingSubscriptions` (the router
always passes `'state'` or `'event'`). -/
inductive MsgKind where
  | state | event
deriving DecidableEq, Repr

/-- The per-type payloads of the bridge envelope.  The `type` discriminator
of the TypeScript union is the constructor; `undefined` optional fields are
`none`.  An ack's `error` field is its `(code, message)` pair. -/
inductive Payload where
  | command (action : String) (params : Option (List (String × Val)))
  | event (name : String) (data : Option Val)
  | state (value : Val) (stale : Option Bool) (owner : Option String)
      (version : Option Nat)
  | ack (status : AckStatus) (commandId : String) (result : Option Val)
      (error : Option (String × String))
  | error (code : String) (message : String) (relatedMessageId : Option String)
  | subscribe (patterns : List String) (filter : Option SubFilter)
      (snapshot : Option Bool)
  | unsubscribe (patterns : List String)
deriving DecidableEq, Repr

/-- The bridge message envelope (`BridgeMessage`). -/
structure Message where
  id : String
  source : String
  target : Option String
  path : String
  payload : Payload
  timestamp : Nat
  sequence : Nat
  correlationId : Option String
  ttl : Option Nat
  idempotencyKey : Option String
deriving DecidableEq, Repr

/-- Placeholder for `generateUuidV7()`: ids are opaque fresh identifiers
that no routing or store decision ever inspects. -/
def freshId : String := "uuid-v7"

/-- `createAck` from `factory.ts` (fields the router/adapter never set are
`none`). -/
def createAck (source target path commandId : String) (status : AckStatus)
    (result : Option Val) (error : Option (String × String))
    (correlationId : Option String) (sequence now : Nat) : Message :=
  { id := freshId, source := source, target := some target, path := path,
    payload := .ack status commandId result error,
    timestamp := now, sequence := sequence, correlationId := correlationId,
    ttl := none, idempotencyKey := none }

/-- `createError` from `factory.ts`. -/
def createError (source : String) (target : Option String) (path code msg : String)
    (relatedMessageId : Option String) (correlationId : Option String)
    (sequence now : Nat) : Message :=
  { id := freshId, source := source, target := target, path := path,
    payload := .error code msg relatedMessageId,
    timestamp := now, sequence := sequence, correlationId := correlationId,
    ttl := none, idempotencyKey := none }

-- ---------------------------------------------------------------------------
-- State store: pattern queries and message conversion
-- ---------------------------------------------------------------------------

/-- `StateStore.getMatchingEntries` (via `getMatchingPaths`): the entries
whose path the compiled pattern matches, in store insertion order. -/
def StateStore.getMatchingEntries (s : StateStore) (pattern : String) :
    List (String × StateEntry) :=
  s.entries.filter (fun p => pathMatchesPattern p.1 pattern)

/-- `StateStore.entryToMessage`: a `state` message via `createState` with
the store's `source` and own sequence counter; `stale` is
`entry.stale || undefined`, `owner` is always supplied. -/
def StateStore.entryToMessage (s : StateStore) (path : String) (e : StateEntry)
    (now : Nat) : Message × StateStore :=
  ({ id := freshId, source := s.source, target := none, path := path,
     payload := .state e.value (if e.stale then some true else none)
       (some e.owner) (some e.version),
     timestamp := now, sequence := s.seqCounter, correlationId := none,
     ttl := none, idempotencyKey := none },
   { s with seqCounter := s.seqCounter + 1 })

/-- `StateStore.snapshotToMessages`: one `state` message per snapshot entry,
in snapshot order, threading the store's sequence counter. -/
def StateStore.snapshotToMessages :
    StateStore → List (String × StateEntry) → Nat → List Message × StateStore
  | s, [], _ => ([], s)
  | s, (p, e) :: rest, now =>
    let pr := s.entryToMessage p e now
    let pr2 := StateStore.snapshotToMessages pr.2 rest now
    (pr.1 :: pr2.1, pr2.2)

/-- `StateStore.deltaToMessage`. -/
def StateStore.deltaToMessage (s : StateStore) (delta : StateDelta)
    (now : Nat) : Message × StateStore :=
  s.entryToMessage delta.path delta.entry now

-- ---------------------------------------------------------------------------
-- Subscription manager (src/core/router/subscription.ts)
-- ---------------------------------------------------------------------------

/-- A subscription.  The source generates ids of the shape `sub-N` from a
strictly increasing counter; since the `sub-` prefix is constant the map
`N ↦ sub-N` is injective, and the model keeps the numeric part (see
`subIdString` for the full id string used in outgoing messages).
`compiledPatterns` is omitted: compilation (`patternToRegex`) is pure and
deterministic, so `compiledPatterns[i]` is recomputed from `patterns[i]`
on demand. -/
structure Subscription where
  id : Nat
  clientId : String
  patterns : List String
  filter : SubFilter
  snapshot : Bool
  snapshotSent : Bool
  createdAt : Nat
deriving DecidableEq, Repr

/-- The id string `sub-N` of subscription number `N`. -/
def subIdString (n : Nat) : String := "sub-" ++ toString n

/-- The `SubscriptionManager` state: subscriptions in insertion order (the
iteration order of `subscriptionsById.values()`) and the id counter.  The
`subscriptionsByClient` index is derivable and not modelled separately. -/
structure SubscriptionManager where
  subs : List Subscription
  idCounter : Nat
deriving DecidableEq, Repr

/-- `SubscriptionManager.subscribe` with its declared defaults
(`filter='all'`, `snapshot=true` — applied when the argument is
`undefined`). -/
def SubscriptionManager.subscribe (m : SubscriptionManager) (clientId : String)
    (patterns : List String) (filter : Option SubFilter)
    (snapshot : Option Bool) (now : Nat) :
    Subscription × SubscriptionManager :=
  let sub : Subscription :=
    { id := m.idCounter + 1, clientId := clientId, patterns := patterns,
      filter := filter.getD .all, snapshot := snapshot.getD true,
      snapshotSent := false, createdAt := now }
  (sub, { subs := m.subs ++ [sub], idCounter := m.idCounter + 1 })

/-- The filter admission test inside `getMatchingSubscriptions` (with a
message type always supplied, as the router does). -/
def filterAdmits (f : SubFilter) (k : MsgKind) : Bool :=
  match f, k with
  | .state, .event => false
  | .events, .state => false
  | _, _ => true

/-- Whether any of a subscription's (compiled) patterns matches a path. -/
def Subscription.matchesPath (sub : Subscription) (path : String) : Bool :=
  sub.patterns.any (fun pat => pathMatchesPattern path pat)

/-- `getMatchingSubscriptions` restricted to what the router consumes: the
matching subscriptions, in insertion order (the `matchedPattern` of each
match is not used by the router). -/
def SubscriptionManager.getMatchingSubscriptions (m : SubscriptionManager)
    (path : String) (k : MsgKind) : List Subscription :=
  m.subs.filter (fun sub => filterAdmits sub.filter k && sub.matchesPath path)

/-- First-occurrence deduplication: the contents of a JavaScript `Set`
filled by iteration, in insertion order. -/
def dedupFirst : List String → List String
  | [] => []
  | x :: xs => x :: (dedupFirst xs).filter (fun y => y != x)

/-- `SubscriptionManager.getSubscribedClients`. -/
def SubscriptionManager.getSubscribedClients (m : SubscriptionManager)
    (path : String) (k : MsgKind) : List String :=
  dedupFirst ((m.getMatchingSubscriptions path k).map (fun s => s.clientId))

/-- `SubscriptionManager.markSnapshotSent` (under the map invariant that
ids are unique, updating every entry with the id equals updating the one
`subscriptionsById` entry). -/
def SubscriptionManager.markSnapshotSent (m : SubscriptionManager) (id : Nat) :
    SubscriptionManager :=
  { m with subs := m.subs.map (fun s =>
      if s.id == id then { s with snapshotSent := true } else s) }

/-- Whether any of the subscription's patterns is in the given pattern
set (`subscription.patterns.some((p) => patternSet.has(p))`). -/
def Subscription.hasAnyPattern (sub : Subscription) (pats : List String) : Bool :=
  sub.patterns.any (fun p => pats.contains p)

/-- `SubscriptionManager.unsubscribePatterns`: removes this client's
subscriptions having a pattern in the set; returns the count removed. -/
def SubscriptionManager.unsubscribePatterns (m : SubscriptionManager)
    (clientId : String) (pats : List String) : Nat × SubscriptionManager :=
  let removed := m.subs.filter
    (fun s => s.clientId == clientId && s.hasAnyPattern pats)
  (removed.length,
   { m with subs :=
      (m.subs.filter (fun s => !(s.clientId == clientId && s.hasAnyPattern pats))) })

/-- `SubscriptionManager.unsubscribeClient`. -/
def SubscriptionManager.unsubscribeClient (m : SubscriptionManager)
    (clientId : String) : Nat × SubscriptionManager :=
  ((m.subs.filter (fun s => s.clientId == clientId)).length,
   { m with subs := m.subs.filter (fun s => !(s.clientId == clientId)) })

-- ---------------------------------------------------------------------------
-- Message router (MessageRouter in src/core/router/router.ts)
-- ---------------------------------------------------------------------------

/-- `RouteTarget` minus its handler: delivery to a handler is recorded in
the trace (see `Delivery`) instead of invoking code.  `ns` is the source's
`namespace` field (a Lean keyword). -/
structure RouteTarget where
  id : String
  ns : String
deriving DecidableEq, Repr

/-- One invocation `target.handler(msg)`. -/
structure Delivery where
  targetId : String
  targetNs : String
  msg : Message
deriving DecidableEq, Repr

/-- An idempotency cache record (`result` is `null` while in flight). -/
structure IdemRecord where
  result : Option Message
  timestamp : Nat
deriving DecidableEq, Repr

/-- The `MessageRouter` state.  `targets` is the namespace-keyed `Map` in
insertion order; `pending` is the `pendingCommands` map (commandId to the
originating command; its timer handle and resolver are external effects
outside the routing trace).  `now` stands for `Date.now()`. -/
structure Router where
  targets : List RouteTarget
  store : StateStore
  subs : SubscriptionManager
  seq : Nat
  idem : List (String × IdemRecord)
  pending : List (String × Message)
  enableIdempotency : Bool
  idempotencyTtl : Nat
  now : Nat
deriving DecidableEq, Repr

/-- `this.targets.get(ns)`. -/
def Router.getTargetNs (r : Router) (ns : String) : Option RouteTarget :=
  r.targets.find? (fun t => t.ns == ns)

/-- `namespace.split('.')` (JavaScript `String.prototype.split` with a
one-character separator), over the character list. -/
def splitDot : List Char → List (List Char)
  | [] => [[]]
  | c :: cs =>
    if c = '.' then [] :: splitDot cs
    else
      match splitDot cs with
      | [] => [[c]]
      | s :: rest => (c :: s) :: rest

/-- The segments of `namespace.split('.')` as strings. -/
def splitDotS (ns : String) : List String :=
  (splitDot ns.data).map (fun cs => String.mk cs)

/-- `findTargetById`: first target (in insertion order) with the id. -/
def Router.findTargetById (r : Router) (id : String) : Option RouteTarget :=
  r.targets.find? (fun t => t.id == id)

/-- The prefix-trimming loop of `findTarget`: while more than one segment
remains, pop the last segment and try the joined prefix.  The segment list
is carried reversed so that popping the last segment is structural
(`revParts = parts.reverse`; the prefix tried is `rest.reverse` joined
with dots). -/
def Router.findTargetLoop (r : Router) : List String → Option RouteTarget
  | [] => none
  | [_] => none
  | _ :: rest =>
    match r.getTargetNs (String.intercalate "." rest.reverse) with
    | some t => some t
    | none => r.findTargetLoop rest

/-- `MessageRouter.findTarget`: exact namespace match, then successive
dot-trimmed prefix match. -/
def Router.findTarget (r : Router) (ns : String) : Option RouteTarget :=
  match r.getTargetNs ns with
  | some t => some t
  | none => r.findTargetLoop (splitDotS ns).reverse

/-- `MessageRouter.sendError`: build the error with `source='hub.core'`
(consuming a sequence number unconditionally, as the source does) and
deliver it to the original message's source target when registered. -/
def Router.sendError (r : Router) (orig : Message) (code emsg : String) :
    Router × List Delivery :=
  let err := createError "hub.core" (some orig.source) orig.path code emsg
    (some orig.id) orig.correlationId r.seq r.now
  let r' := { r with seq := r.seq + 1 }
  match r.getTargetNs orig.source with
  | some st => (r', [⟨st.id, st.ns, err⟩])
  | none => (r', [])

/-- `Map.set` on the idempotency cache. -/
def idemSet (m : List (String × IdemRecord)) (k : String) (v : IdemRecord) :
    List (String × IdemRecord) :=
  mapSet m k v

/-- The idempotency gate of `routeCommand` (the cache consultation when
idempotency is enabled and a key is present): `some (some res)` is a
cached terminal result, `some none` a cached in-flight marker, `none`
no applicable cache record. -/
def Router.cachedResult (r : Router) (m : Message) :
    Option (Option Message) :=
  if r.enableIdempotency then
    match m.idempotencyKey with
    | some key => (mapGet r.idem key).map (fun rec => rec.result)
    | none => none
  else none

/-- `MessageRouter.routeCommand`.  The idempotency branch: a cached
terminal result is re-delivered to the source and routing stops; a cached
in-flight marker suppresses the command entirely.  Otherwise resolve the
target (`findTarget`); with no target, emit `UNKNOWN_TARGET` to the
source.  With a target: deliver a `received` ack to the source, deliver
the command to the target's handler, and cache an in-flight marker.  The
handler invocation is recorded in the trace; its own emissions re-enter
the router as later `route` inputs (the model's handlers do not throw, so
the `ADAPTER_ERROR` catch branch is not taken). -/
def Router.routeCommand (r : Router) (m : Message) : Router × List Delivery :=
  match r.cachedResult m with
  | some (some res) =>
    match r.getTargetNs m.source with
    | some st => (r, [⟨st.id, st.ns, res⟩])
    | none => (r, [])
  | some none => (r, [])
  | none =>
    match r.findTarget (m.target.getD "") with
    | none =>
      r.sendError m "UNKNOWN_TARGET" ("Unknown target: " ++ m.target.getD "")
    | some tgt =>
      let receivedAck := createAck "hub.core" m.source m.path m.id
        AckStatus.received none none m.correlationId r.seq r.now
      let r1 := { r with seq := r.seq + 1 }
      let ds1 := match r1.getTargetNs m.source with
        | some st => [⟨st.id, st.ns, receivedAck⟩]
        | none => ([] : List Delivery)
      let r2 :=
        if r1.enableIdempotency then
          match m.idempotencyKey with
          | some key =>
            { r1 with idem := idemSet r1.idem key ⟨none, r1.now⟩ }
          | none => r1
        else r1
      (r2, ds1 ++ [⟨tgt.id, tgt.ns, m⟩])

/-- `MessageRouter.routeEvent`: deliver to each subscribed client's target,
skipping a target whose namespace equals the event's source. -/
def Router.routeEvent (r : Router) (m : Message) : Router × List Delivery :=
  let clients := r.subs.getSubscribedClients m.path MsgKind.event
  (r, clients.filterMap (fun cid =>
    match r.findTargetById cid with
    | some t =>
      if t.ns == m.source then none else some ⟨t.id, t.ns, m⟩
    | none => none))

/-- `MessageRouter.handleStateDelta` (the listener the router installs on
the store): convert the delta to a `state` message and deliver it to each
subscribed client's target, skipping a target whose namespace equals the
delta entry's owner. -/
def Router.handleStateDelta (r : Router) (delta : StateDelta) :
    Router × List Delivery :=
  let pr := r.store.deltaToMessage delta r.now
  let r' := { r with store := pr.2 }
  let clients := r'.subs.getSubscribedClients delta.path MsgKind.state
  (r', clients.filterMap (fun cid =>
    match r'.findTargetById cid with
    | some t =>
      if t.ns == delta.entry.owner then none
      else some ⟨t.id, t.ns, pr.1⟩
    | none => none))

/-- `MessageRouter.routeState`: apply the write; on a
`StateOwnershipError` send `STATE_CONFLICT` back to the source; otherwise
the store's listener (`handleStateDelta`) fans the delta out. -/
def Router.routeState (r : Router) (m : Message) : Router × List Delivery :=
  match m.payload with
  | .state v _ _ _ =>
    match r.store.set m.path v m.source r.now with
    | .error (.ownership path cur att) =>
      r.sendError m "STATE_CONFLICT"
        ("State key " ++ path ++ " is owned by " ++ cur ++
          ", cannot be modified by " ++ att)
    | .ok (none, s') => ({ r with store := s' }, [])
    | .ok (some delta, s') =>
      Router.handleStateDelta { r with store := s' } delta
  | _ => (r, [])

/-- `MessageRouter.handleAck`: if the commandId is pending, clear it and
(idempotency enabled, key present) cache the terminal ack; then forward
the ack to its `target` (the original command source). -/
def Router.handleAck (r : Router) (m : Message) : Router × List Delivery :=
  match m.payload with
  | .ack _ commandId _ _ =>
    let r1 :=
      match mapGet r.pending commandId with
      | some pendingMsg =>
        let r' := { r with pending :=
          (r.pending.filter (fun p => !(p.1 == commandId))) }
        if r'.enableIdempotency then
          match pendingMsg.idempotencyKey with
          | some key =>
            { r' with idem := idemSet r'.idem key ⟨some m, r'.now⟩ }
          | none => r'
        else r'
      | none => r
    match r1.getTargetNs (m.target.getD "") with
    | some st => (r1, [⟨st.id, st.ns, m⟩])
    | none => (r1, [])
  | _ => (r, [])

/-- `MessageRouter.handleError`: forward to the target if specified. -/
def Router.handleError (r : Router) (m : Message) : Router × List Delivery :=
  match m.target with
  | some tgt =>
    match r.getTargetNs tgt with
    | some t => (r, [⟨t.id, t.ns, m⟩])
    | none => (r, [])
  | none => (r, [])

/-- The snapshot-streaming loop of `handleSubscribe`: for each pattern,
stream the store's matching entries as individual `state` messages to the
subscriber's target. -/
def Router.streamSnapshots (st : RouteTarget) :
    Router → List String → Router × List Delivery
  | r, [] => (r, [])
  | r, pat :: rest =>
    let snap := r.store.getMatchingEntries pat
    let pr := StateStore.snapshotToMessages r.store snap r.now
    let r1 := { r with store := pr.2 }
    let ds := pr.1.map (fun msg => (⟨st.id, st.ns, msg⟩ : Delivery))
    let pr2 := Router.streamSnapshots st r1 rest
    (pr2.1, ds ++ pr2.2)

/-- `MessageRouter.handleSubscribe`: create the subscription; ack
`completed` with the subscriptionId to the source; if `payload.snapshot`
is truthy, stream each pattern's snapshot entries, emit the
`snapshot_complete` event at `hub.subscriptions`, and mark the snapshot
sent.  Nothing is delivered when the source has no registered target (the
subscription is still created). -/
def Router.handleSubscribe (r : Router) (m : Message) : Router × List Delivery :=
  match m.payload with
  | .subscribe patterns filter snapshot =>
    let pr := r.subs.subscribe m.source patterns filter snapshot r.now
    let sub := pr.1
    let ack := createAck "hub.core" m.source m.path m.id AckStatus.completed
      (some (.obj [("subscriptionId", .str (subIdString sub.id))])) none
      m.correlationId r.seq r.now
    let r1 := { r with subs := pr.2, seq := r.seq + 1 }
    match r1.getTargetNs m.source with
    | none => (r1, [])
    | some st =>
      if snapshot.getD false then
        let pr2 := Router.streamSnapshots st r1 patterns
        let r2 := pr2.1
        let completeEvent : Message :=
          { id := "snapshot-complete-" ++ subIdString sub.id,
            source := "hub.core", target := none, path := "hub.subscriptions",
            payload := .event "snapshot_complete"
              (some (.obj [("subscriptionId", .str (subIdString sub.id))])),
            timestamp := r2.now, sequence := r2.seq, correlationId := none,
            ttl := none, idempotencyKey := none }
        let r3 := { r2 with seq := r2.seq + 1,
                            subs := r2.subs.markSnapshotSent sub.id }
        (r3, ⟨st.id, st.ns, ack⟩ :: pr2.2 ++
          [⟨st.id, st.ns, completeEvent⟩])
      else
        (r1, [⟨st.id, st.ns, ack⟩])
  | _ => (r, [])

/-- `MessageRouter.handleUnsubscribe`. -/
def Router.handleUnsubscribe (r : Router) (m : Message) :
    Router × List Delivery :=
  match m.payload with
  | .unsubscribe patterns =>
    let pr := r.subs.unsubscribePatterns m.source patterns
    let ack := createAck "hub.core" m.source m.path m.id AckStatus.completed
      (some (.obj [("removedCount", .num (Int.ofNat pr.1))])) none
      m.correlationId r.seq r.now
    let r1 := { r with subs := pr.2, seq := r.seq + 1 }
    match r1.getTargetNs m.source with
    | some st => (r1, [⟨st.id, st.ns, ack⟩])
    | none => (r1, [])
  | _ => (r, [])

/-- `MessageRouter.route`: dispatch on the message type (the payload
constructor). -/
def Router.route (r : Router) (m : Message) : Router × List Delivery :=
  match m.payload with
  | .command _ _ => r.routeCommand m
  | .event _ _ => r.routeEvent m
  | .state _ _ _ _ => r.routeState m
  | .ack _ _ _ _ => r.handleAck m
  | .error _ _ _ => r.handleError m
  | .subscribe _ _ _ => r.handleSubscribe m
  | .unsubscribe _ => r.handleUnsubscribe m

/-- Sequential processing of a list of inbound messages, concatenating the
delivery traces in order. -/
def Router.routeAll : Router → List Message → Router × List Delivery
  | r, [] => (r, [])
  | r, m :: ms =>
    let pr := r.route m
    let pr2 := Router.routeAll pr.1 ms
    (pr2.1, pr.2 ++ pr2.2)

-- ---------------------------------------------------------------------------
-- Companion adapter (src/adapters/companion/adapter.ts)
-- ---------------------------------------------------------------------------

/-- `CompanionCapabilities` (the flags the command handlers consult). -/
structure Capabilities where
  supportsVariables : Bool
  supportsKeyImages : Bool
  supportsRotation : Bool
  supportsVariableWrite : Bool
deriving DecidableEq, Repr

/-- The adapter namespace constant (`this.namespace`). -/
def adapterNs : String := "companion.satellite"

/-- The adapter state relevant to `handleBridgeMessage`: its device id,
detected capabilities, whether the upstream socket is open
(`ws !== null && ws.readyState === OPEN`), the local variables cache, the
key-state cache keys, its own sequence counter and the clock. -/
structure Adapter where
  deviceId : String
  capabilities : Capabilities
  wsOpen : Bool
  variablesCache : List (String × String)
  keyCacheKeys : List String
  seq : Nat
  now : Nat
deriving DecidableEq, Repr

/-- `params?.<k>`: field lookup in the params record (`none` models both a
missing params object and a missing field, exactly like `?.`). -/
def pGet (params : Option (List (String × Val))) (k : String) : Option Val :=
  params.bind (fun ps => mapGet ps k)

/-- `sendSatelliteCommand`: the wire frame `[command, ...args].join(' ')`
is sent only when the socket is open (otherwise the method returns `false`
without sending; its boolean result is ignored by every caller). -/
def Adapter.sendSatelliteCommand (a : Adapter) (cmd : String)
    (args : List String) : List String :=
  if a.wsOpen then [String.intercalate " " (cmd :: args)] else []

/-- `sendCompletedAck`: a `completed` ack from the adapter namespace back
to the command source, handed to `router.route`. -/
def Adapter.completedAck (a : Adapter) (cmd : Message) (result : Option Val) :
    Message × Adapter :=
  (createAck adapterNs cmd.source cmd.path cmd.id AckStatus.completed result
    none cmd.correlationId a.seq a.now,
   { a with seq := a.seq + 1 })

/-- `sendErrorResponse`: a `failed` ack carrying `(code, message)`. -/
def Adapter.failedAck (a : Adapter) (cmd : Message) (code msg : String) :
    Message × Adapter :=
  (createAck adapterNs cmd.source cmd.path cmd.id AckStatus.failed none
    (some (code, msg)) cmd.correlationId a.seq a.now,
   { a with seq := a.seq + 1 })

/-- The `(page - 1) * 8 + bank` conversion (page 1-based, bank 0-based);
non-numeric operands would give `NaN` under JavaScript arithmetic. -/
def pageBankArg (page bank : Val) : String :=
  match page, bank with
  | .prim (.num p), .prim (.num b) => toString ((p - 1) * 8 + b)
  | _, _ => "NaN"

/-- `handlePressCommand` / `handleReleaseCommand` (identical shape; the
final token is `PRESSED` or `RELEASED`).  `keyIndex` presence is tested
with `!== undefined`; the page/bank fallback needs both present; otherwise
a `failed` ack with `INVALID_MESSAGE`.  The completed ack is sent
unconditionally after `sendSatelliteCommand`, whose result is ignored. -/
def Adapter.handlePressCommand (a : Adapter) (cmd : Message)
    (params : Option (List (String × Val))) (released : Bool) :
    Adapter × List String × List Message :=
  let tok := if released then "RELEASED" else "PRESSED"
  match pGet params "keyIndex" with
  | some ki =>
    let frames := a.sendSatelliteCommand "KEY-PRESS"
      [a.deviceId, valToArg ki, tok]
    let pr := a.completedAck cmd none
    (pr.2, frames, [pr.1])
  | none =>
    match pGet params "page", pGet params "bank" with
    | some page, some bank =>
      let frames := a.sendSatelliteCommand "KEY-PRESS"
        [a.deviceId, pageBankArg page bank, tok]
      let pr := a.completedAck cmd none
      (pr.2, frames, [pr.1])
    | _, _ =>
      let pr := a.failedAck cmd "INVALID_MESSAGE"
        "Missing keyIndex or page/bank parameters"
      (pr.2, [], [pr.1])

/-- `handleRotateCommand`: requires the ROTATION capability
(`ADAPTER_ERROR` otherwise); the parameter check is the truthiness test
`!params?.keyIndex || !params?.direction` (note: *truthiness*, not
presence — `keyIndex: 0` fails it); direction `left` becomes `-1`,
anything else `1`. -/
def Adapter.handleRotateCommand (a : Adapter) (cmd : Message)
    (params : Option (List (String × Val))) :
    Adapter × List String × List Message :=
  if !a.capabilities.supportsRotation then
    let pr := a.failedAck cmd "ADAPTER_ERROR"
      "Rotation not supported by this Companion instance"
    (pr.2, [], [pr.1])
  else if !jsTruthy (pGet params "keyIndex") ||
      !jsTruthy (pGet params "direction") then
    let pr := a.failedAck cmd "INVALID_MESSAGE"
      "Missing keyIndex or direction parameters"
    (pr.2, [], [pr.1])
  else
    let ki := (pGet params "keyIndex").getD vNull
    let dir := if pGet params "direction" == some (vStr "left")
      then "-1" else "1"
    let frames := a.sendSatelliteCommand "KEY-ROTATE"
      [a.deviceId, valToArg ki, dir]
    let pr := a.completedAck cmd none
    (pr.2, frames, [pr.1])

/-- `handleSetVariableCommand`: requires VARIABLE_WRITE; `name` must be
truthy and `value` present; the frame carries
`name=encodeURIComponent(value)` with the JavaScript built-in encoder
passed in as `enc`. -/
def Adapter.handleSetVariableCommand (enc : String → String) (a : Adapter)
    (cmd : Message) (params : Option (List (String × Val))) :
    Adapter × List String × List Message :=
  if !a.capabilities.supportsVariableWrite then
    let pr := a.failedAck cmd "ADAPTER_ERROR" "Variable write not supported"
    (pr.2, [], [pr.1])
  else if !jsTruthy (pGet params "name") || pGet params "value" == none then
    let pr := a.failedAck cmd "INVALID_MESSAGE" "Missing name or value parameters"
    (pr.2, [], [pr.1])
  else
    let name := valToArg ((pGet params "name").getD vNull)
    let v := valToArg ((pGet params "value").getD vNull)
    let frames := a.sendSatelliteCommand "VARIABLE-VALUE" [name ++ "=" ++ enc v]
    let pr := a.completedAck cmd none
    (pr.2, frames, [pr.1])

/-- `handleGetVariableCommand`: no wire call; answers `completed` with
`{ name, value ?? null }` from the local variables cache. -/
def Adapter.handleGetVariableCommand (a : Adapter) (cmd : Message)
    (params : Option (List (String × Val))) :
    Adapter × List String × List Message :=
  if !jsTruthy (pGet params "name") then
    let pr := a.failedAck cmd "INVALID_MESSAGE" "Missing name parameter"
    (pr.2, [], [pr.1])
  else
    let name := valToArg ((pGet params "name").getD vNull)
    let value := mapGet a.variablesCache name
    let res : Val := .obj [("name", .str name),
      ("value", match value with | some s => .str s | none => .null)]
    let pr := a.completedAck cmd (some res)
    (pr.2, [], [pr.1])

/-- `handleClearKeysCommand`: `KEYS-CLEAR deviceId`, clear the key cache,
ack `completed`. -/
def Adapter.handleClearKeysCommand (a : Adapter) (cmd : Message) :
    Adapter × List String × List Message :=
  let frames := a.sendSatelliteCommand "KEYS-CLEAR" [a.deviceId]
  let a1 := { a with keyCacheKeys := [] }
  let pr := a1.completedAck cmd none
  (pr.2, frames, [pr.1])

/-- `handleBridgeMessage`: only commands are handled; the action switch
with `ADAPTER_ERROR` for unknown actions.  Returns the adapter state, the
wire frames actually sent, and the acks handed to `router.route`
(the router reference is assumed attached, as after `connect`). -/
def Adapter.handleBridgeMessage (enc : String → String) (a : Adapter)
    (m : Message) : Adapter × List String × List Message :=
  match m.payload with
  | .command action params =>
    match action with
    | "press" => a.handlePressCommand m params false
    | "release" => a.handlePressCommand m params true
    | "rotate" => a.handleRotateCommand m params
    | "setVariable" => Adapter.handleSetVariableCommand enc a m params
    | "getVariable" => a.handleGetVariableCommand m params
    | "clearKeys" => a.handleClearKeysCommand m
    | _ =>
      let pr := a.failedAck m "ADAPTER_ERROR" ("Unknown action: " ++ action)
      (pr.2, [], [pr.1])
  | _ => (a, [], [])

-- ---------------------------------------------------------------------------
-- Specification-side definitions (for refinement statements)
-- ---------------------------------------------------------------------------

/-- The successive dot-trimmed proper prefixes of a namespace whose
reversed segment list is given (for example `companion.satellite.x` gives
`companion.satellite` then `companion`). -/
def trimChain : List String → List String
  | [] => []
  | [_] => []
  | _ :: rest => String.intercalate "." rest.reverse :: trimChain rest

/-- The spec's stated resolution order for a command target: the exact
namespace first, then its successive dot-trimmed prefixes. -/
def resolutionChain (ns : String) : List String :=
  ns :: trimChain (splitDotS ns).reverse

/-- A command is fresh for the idempotency cache: either idempotency is
off, the key is absent, or the key has no cache record. -/
def idemFresh (r : Router) (m : Message) : Prop :=
  r.enableIdempotency = true →
    ∀ k, m.idempotencyKey = some k → mapGet r.idem k = none

-- ---------------------------------------------------------------------------
-- Concrete witness inputs
-- ---------------------------------------------------------------------------

/-- The store used by the C2 counterexample: `a.b` already holds the
structurally equal value `"x"`, currently flagged stale (as after
`markOwnerStale`). -/
def c2Store : StateStore :=
  { entries := [("a.b",
      { value := vStr "x", owner := "app.a", version := 3, stale := true,
        updatedAt := 0, path := "a.b" })],
    globalVersion := 3, seqCounter := 0, source := "hub.core" }

/-- The entry owned by `app.a` in the C4 witness. -/
def c4Entry : StateEntry :=
  { value := vNum 1, owner := "app.a", version := 1, stale := false,
    updatedAt := 0, path := "x.y" }

/-- The router used by the C4 witness: two clients, `app.a` owning `x.y`. -/
def c4Router : Router :=
  { targets := [⟨"c1", "app.a"⟩, ⟨"c2", "app.b"⟩],
    store := ⟨[("x.y", c4Entry)], 1, 0, "hub.core"⟩,
    subs := ⟨[], 0⟩,
    seq := 0, idem := [], pending := [],
    enableIdempotency := true, idempotencyTtl := 60000, now := 50 }

/-- The conflicting write of the C4 witness: `app.b` writes `x.y`. -/
def c4Msg : Message :=
  { id := "m1", source := "app.b", target := none, path := "x.y",
    payload := .state (vNum 2) none none none,
    timestamp := 50, sequence := 0, correlationId := none, ttl := none,
    idempotencyKey := none }

/-- The router of the C6 witness: a client and a `companion` adapter. -/
def c6Router : Router :=
  { targets := [⟨"c1", "app.ui"⟩, ⟨"adapter-1", "companion"⟩],
    store := ⟨[], 0, 0, "hub.core"⟩, subs := ⟨[], 0⟩,
    seq := 0, idem := [], pending := [],
    enableIdempotency := true, idempotencyTtl := 60000, now := 10 }

/-- The C6 witness command, addressed to an unregistered target. -/
def c6Msg : Message :=
  { id := "c6", source := "app.ui", target := some "ghost.dev",
    path := "ghost.dev", payload := .command "press" none,
    timestamp := 10, sequence := 1, correlationId := none, ttl := none,
    idempotencyKey := none }

/-- The router of the C5 witness: one client, one store entry owned by
the companion adapter. -/
def c5Router : Router :=
  { targets := [⟨"c1", "app.ui"⟩],
    store := ⟨[("companion.variables.tally",
      ⟨vStr "cam1", "companion.satellite", 1, false, 0,
        "companion.variables.tally"⟩)], 1, 0, "hub.core"⟩,
    subs := ⟨[], 0⟩, seq := 0, idem := [], pending := [],
    enableIdempotency := true, idempotencyTtl := 60000, now := 30 }

/-- The C5 witness subscribe message, with snapshot requested. -/
def c5Sub : Message :=
  { id := "s5", source := "app.ui", target := none,
    path := "hub.subscriptions",
    payload := .subscribe ["companion.variables.**"] none (some true),
    timestamp := 30, sequence := 0, correlationId := none, ttl := none,
    idempotencyKey := none }

/-- The router of the C1 scenario: the resending client `app.ui` and the
`companion` adapter, idempotency enabled. -/
def c1Router : Router :=
  { targets := [⟨"client-1", "app.ui"⟩, ⟨"adapter-1", "companion"⟩],
    store := ⟨[], 0, 0, "hub.core"⟩, subs := ⟨[], 0⟩,
    seq := 0, idem := [], pending := [],
    enableIdempotency := true, idempotencyTtl := 60000, now := 1000 }

/-- The C1 command, carrying idempotency key `K1` (routed twice, well
within the 60 s TTL since the model clock does not advance). -/
def c1Cmd : Message :=
  { id := "cmd-1", source := "app.ui", target := some "companion",
    path := "companion.device",
    payload := .command "press" (some [("keyIndex", vNum 5)]),
    timestamp := 1000, sequence := 0, correlationId := none, ttl := none,
    idempotencyKey := some "K1" }

/-- The adapter's terminal `completed` ack for `cmd-1`, routed back
through the router between the first dispatch and the resend. -/
def c1Ack : Message :=
  createAck adapterNs "app.ui" "companion.device" "cmd-1"
    AckStatus.completed none none none 0 1000

/-- The router of the C9 witness. -/
def c9Router : Router :=
  { targets := [⟨"c1", "app.ui"⟩],
    store := ⟨[("a.b", ⟨vStr "x", "app.a", 1, false, 0, "a.b"⟩)], 1, 0,
      "hub.core"⟩,
    subs := ⟨[], 0⟩, seq := 0, idem := [], pending := [],
    enableIdempotency := true, idempotencyTtl := 60000, now := 40 }

/-- The C9 witness subscribe message, omitting `payload.snapshot`. -/
def c9Sub : Message :=
  { id := "s9", source := "app.ui", target := none,
    path := "hub.subscriptions",
    payload := .subscribe ["a.**"] none none, timestamp := 40,
    sequence := 0, correlationId := none, ttl := none,
    idempotencyKey := none }

/-- The `app.x` client's subscription in the C7 witness. -/
def c7SubX : Subscription :=
  { id := 1, clientId := "cx", patterns := ["app.x.**"], filter := .all,
    snapshot := true, snapshotSent := false, createdAt := 0 }

/-- The `app.y` client's subscription in the C7 witness. -/
def c7SubY : Subscription :=
  { id := 2, clientId := "cy", patterns := ["app.x.**"], filter := .all,
    snapshot := true, snapshotSent := false, createdAt := 0 }

/-- The router of the C7 witness: clients `app.x` and `app.y`, both
subscribed to `app.x.**`. -/
def c7Router : Router :=
  { targets := [⟨"cx", "app.x"⟩, ⟨"cy", "app.y"⟩],
    store := ⟨[], 0, 0, "hub.core"⟩,
    subs := ⟨[c7SubX, c7SubY], 2⟩,
    seq := 0, idem := [], pending := [],
    enableIdempotency := true, idempotencyTtl := 60000, now := 20 }

/-- The C7 witness event, originating from `app.x`. -/
def c7Event : Message :=
  { id := "e7", source := "app.x", target := none, path := "app.x.foo",
    payload := .event "tick" none, timestamp := 20, sequence := 0,
    correlationId := none, ttl := none, idempotencyKey := none }

/-- The C7 witness state delta, owned by `app.x`. -/
def c7Delta : StateDelta :=
  { path := "app.x.foo",
    entry := ⟨vNum 1, "app.x", 1, false, 20, "app.x.foo"⟩,
    previousVersion := none }

/-- The adapter of the C8 counterexample: default capabilities, socket
NOT open. -/
def c8Adapter : Adapter :=
  { deviceId := "dev", capabilities := ⟨true, true, false, true⟩,
    wsOpen := false, variablesCache := [], keyCacheKeys := [],
    seq := 0, now := 0 }

/-- The C8 press command with valid params. -/
def c8Press : Message :=
  { id := "c8", source := "app.ui", target := some "companion",
    path := "companion",
    payload := .command "press" (some [("keyIndex", vNum 5)]),
    timestamp := 0, sequence := 0, correlationId := none, ttl := none,
    idempotencyKey := none }

/-- The adapter of the C10 witness: like `c8Adapter` but with the
ROTATION capability detected and the socket open. -/
def c10Adapter : Adapter :=
  { deviceId := "dev", capabilities := ⟨true, true, true, true⟩,
    wsOpen := true, variablesCache := [], keyCacheKeys := [],
    seq := 0, now := 0 }

/-- The C10 rotate command with `keyIndex: 0, direction: "left"`. -/
def c10Rotate : Message :=
  { id := "c10", source := "app.ui", target := some "companion",
    path := "companion",
    payload := .command "rotate"
      (some [("keyIndex", vNum 0), ("direction", vStr "left")]),
    timestamp := 0, sequence := 0, correlationId := none, ttl := none,
    idempotencyKey := none }

/-- The C10 press command with `keyIndex: 0`. -/
def c10Press : Message :=
  { id := "c10b", source := "app.ui", target := some "companion",
    path := "companion",
    payload := .command "press" (some [("keyIndex", vNum 0)]),
    timestamp := 0, sequence := 0, correlationId := none, ttl := none,
    idempotencyKey := none }

-- ---------------------------------------------------------------------------
-- Theorems
-- ---------------------------------------------------------------------------

/-- Characterisation of `segSuffixes`: exactly the suffixes left after a
non-empty all-non-dot prefix. -/
theorem mem_segSuffixes (s suf : List Char) :
    suf ∈ segSuffixes s ↔
      ∃ pre, s = pre ++ suf ∧ pre ≠ [] ∧ ∀ c ∈ pre, c ≠ '.' := by
  induction s generalizing suf with
  | nil =>
    constructor
    · intro h; simp [segSuffixes] at h
    · rintro ⟨pre, h, hne, -⟩
      exact absurd (List.append_eq_nil.mp h.symm).1 hne
  | cons d ds ih =>
    by_cases hd : d = '.'
    · subst hd
      have hseg : segSuffixes ('.' :: ds) = [] := by simp [segSuffixes]
      rw [hseg]
      constructor
      · intro h; simp at h
      · rintro ⟨pre, h, hne, hnd⟩
        cases pre with
        | nil => exact absurd rfl hne
        | cons c pre' =>
          rw [List.cons_append] at h
          injection h with h1 h2
          exact absurd h1.symm (hnd c (by simp))
    · have hseg : segSuffixes (d :: ds) = ds :: segSuffixes ds := by
        simp [segSuffixes, hd]
      rw [hseg, List.mem_cons]
      constructor
      · rintro (rfl | hmem)
        · exact ⟨[d], rfl, by simp, by simpa using hd⟩
        · obtain ⟨pre, rfl, hne, hnd⟩ := (ih suf).mp hmem
          refine ⟨d :: pre, rfl, by simp, ?_⟩
          intro c hc
          rcases List.mem_cons.mp hc with rfl | hc'
          · exact hd
          · exact hnd c hc'
      · rintro ⟨pre, h, hne, hnd⟩
        cases pre with
        | nil => exact absurd rfl hne
        | cons c pre' =>
          rw [List.cons_append] at h
          injection h with h1 h2
          cases pre' with
          | nil => left; simpa using h2.symm
          | cons c' pre'' =>
            right
            refine (ih suf).mpr ⟨c' :: pre'', h2, by simp, ?_⟩
            intro x hx
            exact hnd x (List.mem_cons_of_mem _ hx)

/-- Characterisation of `starSuffixes`: exactly the suffixes left after a
(possibly empty) prefix of `.`-matched characters. -/
theorem mem_starSuffixes (s suf : List Char) :
    suf ∈ starSuffixes s ↔
      ∃ pre, s = pre ++ suf ∧ ∀ c ∈ pre, dotMatches c = true := by
  induction s generalizing suf with
  | nil =>
    simp only [starSuffixes, List.mem_singleton]
    constructor
    · rintro rfl; exact ⟨[], rfl, by simp⟩
    · rintro ⟨pre, h, -⟩
      exact (List.append_eq_nil.mp h.symm).2
  | cons d ds ih =>
    simp only [starSuffixes, List.mem_cons]
    constructor
    · rintro (rfl | hmem)
      · exact ⟨[], rfl, by simp⟩
      · by_cases hdot : dotMatches d
        · rw [if_pos hdot] at hmem
          obtain ⟨pre, rfl, hp⟩ := (ih suf).mp hmem
          refine ⟨d :: pre, rfl, ?_⟩
          intro c hc
          rcases List.mem_cons.mp hc with rfl | hc'
          · exact hdot
          · exact hp c hc'
        · rw [if_neg hdot] at hmem
          simp at hmem
    · rintro ⟨pre, h, hp⟩
      cases pre with
      | nil => left; simpa using h.symm
      | cons c pre' =>
        right
        rw [List.cons_append] at h
        injection h with h1 h2
        have hdot : dotMatches d = true := h1 ▸ hp c (by simp)
        rw [if_pos hdot]
        refine (ih suf).mpr ⟨pre', h2, ?_⟩
        intro x hx
        exact hp x (List.mem_cons_of_mem _ hx)

/-- The executable matcher agrees with the declarative anchored
semantics. -/
theorem regexMatch_iff_RMatches (ts : List RTok) (s : List Char) :
    regexMatch ts s = true ↔ RMatches ts s := by
  induction ts generalizing s with
  | nil =>
    simp only [regexMatch, List.isEmpty_iff]
    constructor
    · rintro rfl; exact .nil
    · rintro h; cases h; rfl
  | cons t ts ih =>
    cases t with
    | lit c =>
      cases s with
      | nil =>
        simp only [regexMatch, Bool.false_eq_true, false_iff]
        rintro h; cases h
      | cons d ds =>
        simp only [regexMatch, Bool.and_eq_true, beq_iff_eq]
        constructor
        · rintro ⟨rfl, hm⟩
          exact .lit c ts ds ((ih ds).mp hm)
        · rintro h
          cases h with
          | lit _ _ _ hm => exact ⟨rfl, (ih ds).mpr hm⟩
    | seg =>
      simp only [regexMatch, List.any_eq_true]
      constructor
      · rintro ⟨suf, hmem, hm⟩
        obtain ⟨pre, rfl, hne, hnd⟩ := (mem_segSuffixes s suf).mp hmem
        exact .seg pre ts suf hne hnd ((ih suf).mp hm)
      · rintro h
        cases h with
        | seg pre _ s' hne hnd hm =>
          exact ⟨s', (mem_segSuffixes _ s').mpr ⟨pre, rfl, hne, hnd⟩,
            (ih s').mpr hm⟩
    | star =>
      simp only [regexMatch, List.any_eq_true]
      constructor
      · rintro ⟨suf, hmem, hm⟩
        obtain ⟨pre, rfl, hp⟩ := (mem_starSuffixes s suf).mp hmem
        exact .star pre ts suf hp ((ih suf).mp hm)
      · rintro h
        cases h with
        | star pre _ s' hp hm =>
          exact ⟨s', (mem_starSuffixes _ s').mpr ⟨pre, rfl, hp⟩,
            (ih s').mpr hm⟩


/-- Reading back the key just written by `mapSet`. -/
theorem mapGet_mapSet_self {α : Type} (m : List (String × α)) (k : String)
    (v : α) : mapGet (mapSet m k v) k = some v := by
  induction m with
  | nil => simp [mapSet, mapGet, List.find?]
  | cons p m ih =>
    by_cases h : p.1 == k
    · simp [mapSet, mapGet, h, List.find?]
    · simp only [mapSet, h, Bool.false_eq_true, if_false]
      simp only [mapGet, List.find?, h] at ih ⊢
      exact ih

-- ---------------------------------------------------------------------------
-- C2 — set followed by get
-- ---------------------------------------------------------------------------

/-- C2 (amended): whenever `set(P, v, O)` passes the ownership check, the
immediately following `get(P)` returns an entry with value structurally
equal to `v` and owner `O`; its `stale` flag is `false` whenever the write
was actually applied (a delta was returned), but when the store already
held a structurally equal value the write is suppressed and the store —
including a previously set `stale` flag — is unchanged. -/
theorem C2_set_get (s : StateStore) (path : String) (v : Val) (owner : String)
    (now : Nat) (h : ∃ pr, s.set path v owner now = .ok pr) :
    ∃ pr e, s.set path v owner now = .ok pr ∧
      pr.2.get path = some e ∧ e.value = v ∧ e.owner = owner ∧
      (pr.1.isSome → e.stale = false) ∧
      (pr.1 = none → pr.2 = s) := by
  cases hget : s.get path with
  | some existing =>
    by_cases hown : existing.owner = owner
    · by_cases hch : valueChanged existing.value v = true
      · refine ⟨(some ⟨path, ⟨v, owner, existing.version + 1, false, now, path⟩,
              some existing.version⟩,
            ⟨mapSet s.entries path
                ⟨v, owner, existing.version + 1, false, now, path⟩,
              s.globalVersion + 1, s.seqCounter, s.source⟩),
          ⟨v, owner, existing.version + 1, false, now, path⟩,
          ?_, ?_, rfl, rfl, fun _ => rfl, fun hno => by simp at hno⟩
        · simp [StateStore.set, hget, hown, hch]
        · show StateStore.get _ path = _
          simp [StateStore.get, mapGet_mapSet_self]
      · have hch' : valueChanged existing.value v = false := by
          simpa using hch
        have hval : existing.value = v := by
          have := hch'
          simp only [valueChanged, bne_eq_false_iff_eq] at this
          exact this
        refine ⟨(none, s), existing, ?_, hget, hval, hown,
          by simp, fun _ => rfl⟩
        simp [StateStore.set, hget, hown, hch']
    · exfalso
      obtain ⟨pr, hpr⟩ := h
      have hbne : (existing.owner != owner) = true := by
        simpa [bne_iff_ne] using hown
      have hset : s.set path v owner now =
          .error (.ownership path existing.owner owner) := by
        simp [StateStore.set, hget, hbne]
      rw [hset] at hpr
      exact Except.noConfusion hpr
  | none =>
    refine ⟨(some ⟨path, ⟨v, owner, 1, false, now, path⟩, none⟩,
        ⟨mapSet s.entries path ⟨v, owner, 1, false, now, path⟩,
          s.globalVersion + 1, s.seqCounter, s.source⟩),
      ⟨v, owner, 1, false, now, path⟩,
      ?_, ?_, rfl, rfl, fun _ => rfl, fun hno => by simp at hno⟩
    · simp [StateStore.set, hget]
    · show StateStore.get _ path = _
      simp [StateStore.get, mapGet_mapSet_self]

/-- Witness for C2: a fresh write to an empty store. -/
theorem C2_set_get_witness :
    ∃ pr e,
      StateStore.set
        { entries := [], globalVersion := 0, seqCounter := 0,
          source := "hub.core" } "a.b" (vStr "x") "app.a" 7 = .ok pr ∧
      pr.2.get "a.b" = some e ∧ e.value = vStr "x" ∧ e.owner = "app.a" ∧
      (pr.1.isSome → e.stale = false) ∧
      (pr.1 = none → pr.2 =
        { entries := [], globalVersion := 0, seqCounter := 0,
          source := "hub.core" }) :=
  C2_set_get _ "a.b" (vStr "x") "app.a" 7 ⟨_, rfl⟩

/-- C2 (counterexample): the owner rewrites the structurally equal value —
the set passes the ownership check — yet the immediately following `get`
returns an entry whose `stale` flag is still `true`, not `false` as the
claim requires. -/
theorem C2_counterexample :
    c2Store.set "a.b" (vStr "x") "app.a" 9 = .ok (none, c2Store) ∧
    (c2Store.get "a.b").map StateEntry.stale = some true := by
  constructor <;> rfl

-- ---------------------------------------------------------------------------
-- C3 — pattern semantics
-- ---------------------------------------------------------------------------

/-- C3 (counterexample): the claim's example asserts that pattern `a.**`
matches path `a` because `**` matches zero segments; but the dot before
`**` is a literal regex character (`a\..*`), so the path `a` — which has
no dot — does not match. -/
theorem C3_counterexample : pathMatchesPattern "a" "a.**" = false := by
  decide

/-- C3 (amended): `pathMatchesPattern(path, pattern)` holds iff `path`
matches the anchored translation of `pattern` in which `*` becomes
`[^.]+` (one non-empty dot-free run), `**` becomes `.*` (any run of
`.`-matched characters), and every other character — dots included — is
literal.  Because the dot preceding `**` is literal, `a.**` does not
match `a` (zero-segment matches hold only where no literal dot
intervenes). -/
theorem C3_pathMatchesPattern_iff (path pattern : String) :
    pathMatchesPattern path pattern = true ↔
      RMatches (patternToRegex pattern.data) path.data :=
  regexMatch_iff_RMatches (patternToRegex pattern.data) path.data

-- ---------------------------------------------------------------------------
-- C4 — ownership conflict on routed state writes
-- ---------------------------------------------------------------------------

/-- C4: a routed state write to an existing path by a non-owner is not
applied — the router's resulting state differs only by the sequence
number consumed for the error, so the entry (value, owner, version, stale)
and the store's global version are unchanged — and a `STATE_CONFLICT`
error is delivered back to the writer's registered target. -/
theorem C4_state_conflict (r : Router) (m : Message) (v : Val)
    (stl : Option Bool) (ow : Option String) (ver : Option Nat)
    (e : StateEntry) (t : RouteTarget)
    (hp : m.payload = .state v stl ow ver)
    (hget : r.store.get m.path = some e)
    (hown : e.owner ≠ m.source)
    (ht : r.getTargetNs m.source = some t) :
    r.route m = ({ r with seq := r.seq + 1 },
      [⟨t.id, t.ns,
        createError "hub.core" (some m.source) m.path "STATE_CONFLICT"
          ("State key " ++ m.path ++ " is owned by " ++ e.owner ++
            ", cannot be modified by " ++ m.source)
          (some m.id) m.correlationId r.seq r.now⟩]) ∧
    (r.route m).1.store = r.store := by
  have hbne : (e.owner != m.source) = true := by
    simpa [bne_iff_ne] using hown
  have hset : r.store.set m.path v m.source r.now =
      .error (.ownership m.path e.owner m.source) := by
    simp [StateStore.set, hget, hbne]
  constructor
  · simp [Router.route, hp, Router.routeState, hset, Router.sendError, ht]
  · simp [Router.route, hp, Router.routeState, hset, Router.sendError, ht]

/-- Witness for C4: the concrete conflicting write is answered with
`STATE_CONFLICT` to `app.b` and leaves the store untouched. -/
theorem C4_state_conflict_witness :
    c4Router.route c4Msg = ({ c4Router with seq := c4Router.seq + 1 },
      [⟨"c2", "app.b",
        createError "hub.core" (some "app.b") "x.y" "STATE_CONFLICT"
          ("State key " ++ "x.y" ++ " is owned by " ++ "app.a" ++
            ", cannot be modified by " ++ "app.b")
          (some "m1") none 0 50⟩]) ∧
    (c4Router.route c4Msg).1.store = c4Router.store :=
  C4_state_conflict c4Router c4Msg (vNum 2) none none none c4Entry
    ⟨"c2", "app.b"⟩ rfl (by decide) (by decide) (by decide)

-- ---------------------------------------------------------------------------
-- C6 — target resolution and UNKNOWN_TARGET
-- ---------------------------------------------------------------------------

/-- The prefix-trimming loop agrees with first-hit search along the
trim chain. -/
theorem findTargetLoop_eq (r : Router) (revParts : List String) :
    r.findTargetLoop revParts = (trimChain revParts).findSome? r.getTargetNs := by
  induction revParts with
  | nil => simp [Router.findTargetLoop, trimChain, List.findSome?]
  | cons c rest ih =>
    cases rest with
    | nil => simp [Router.findTargetLoop, trimChain, List.findSome?]
    | cons c' rest' =>
      simp only [Router.findTargetLoop, trimChain, List.findSome?_cons]
      cases hx : r.getTargetNs (String.intercalate "." (c' :: rest').reverse) with
      | some t => simp
      | none => simpa using ih

/-- C6: for every routed command (not short-circuited by the idempotency
cache), the router resolves the target by exact namespace match and then
by successively trimming the last dot-segment (`findTarget` equals
first-hit search along the spec's resolution chain); when no target
resolves, the router emits an `UNKNOWN_TARGET` error back to the command's
registered source, consumes one sequence number, and delivers the command
itself to no handler. -/
theorem C6_resolution (r : Router) (m : Message) (a : String)
    (ps : Option (List (String × Val))) (tgt : String)
    (hp : m.payload = .command a ps)
    (htgt : m.target = some tgt)
    (hfresh : idemFresh r m) :
    r.findTarget tgt = (resolutionChain tgt).findSome? r.getTargetNs ∧
    (r.findTarget tgt = none →
      (r.route m).1 = { r with seq := r.seq + 1 } ∧
      (∀ d ∈ (r.route m).2,
        d.msg.payload =
          .error "UNKNOWN_TARGET" ("Unknown target: " ++ tgt) (some m.id) ∧
        d.msg.target = some m.source ∧ d.msg ≠ m) ∧
      (∀ st, r.getTargetNs m.source = some st →
        (r.route m).2 = [⟨st.id, st.ns,
          createError "hub.core" (some m.source) m.path "UNKNOWN_TARGET"
            ("Unknown target: " ++ tgt) (some m.id) m.correlationId
            r.seq r.now⟩])) := by
  have hchain : r.findTarget tgt =
      (resolutionChain tgt).findSome? r.getTargetNs := by
    unfold Router.findTarget resolutionChain
    cases hx : r.getTargetNs tgt with
    | some t => simp [List.findSome?_cons, hx]
    | none =>
      simp only [List.findSome?_cons, hx]
      exact findTargetLoop_eq r (splitDotS tgt).reverse
  refine ⟨hchain, fun hnone => ?_⟩
  have hcache : r.cachedResult m = none := by
    unfold Router.cachedResult
    by_cases he : r.enableIdempotency
    · cases hk : m.idempotencyKey with
      | some key =>
        have := hfresh he key hk
        simp [he, hk, this]
      | none => simp [he, hk]
    · simp [he]
  have htg : m.target.getD "" = tgt := by rw [htgt]; rfl
  have hroute : r.route m = ({ r with seq := r.seq + 1 },
      match r.getTargetNs m.source with
      | some st => [⟨st.id, st.ns,
          createError "hub.core" (some m.source) m.path "UNKNOWN_TARGET"
            ("Unknown target: " ++ tgt) (some m.id) m.correlationId
            r.seq r.now⟩]
      | none => []) := by
    simp only [Router.route, hp, Router.routeCommand]
    rw [hcache, htg, hnone]
    unfold Router.sendError
    cases hx : r.getTargetNs m.source with
    | some st => simp [hx]
    | none => simp [hx]
  refine ⟨by rw [hroute], ?_, ?_⟩
  · intro d hd
    rw [hroute] at hd
    cases hst : r.getTargetNs m.source with
    | some st =>
      rw [hst] at hd
      simp only [List.mem_singleton] at hd
      subst hd
      refine ⟨rfl, rfl, ?_⟩
      intro habs
      have h2 := congrArg Message.payload habs
      simp only [createError, hp] at h2
      exact Payload.noConfusion h2
    | none =>
      rw [hst] at hd
      simp at hd
  · intro st' hst'
    rw [hroute, hst']

-- ---------------------------------------------------------------------------
-- C5 — snapshot ordering on subscribe
-- ---------------------------------------------------------------------------

/-- Sequential processing decomposes: the head message's deliveries come
first, then everything produced by the rest. -/
theorem routeAll_cons (r : Router) (m : Message) (rest : List Message) :
    Router.routeAll r (m :: rest) =
      ((Router.routeAll (r.route m).1 rest).1,
        (r.route m).2 ++ (Router.routeAll (r.route m).1 rest).2) := rfl

/-- Every message generated by `snapshotToMessages` is a `state`
message. -/
theorem snapshotToMessages_state (entries : List (String × StateEntry)) :
    ∀ (s : StateStore) (now : Nat),
      ∀ msg ∈ (StateStore.snapshotToMessages s entries now).1,
        ∃ v stl ow ver, msg.payload = .state v stl ow ver := by
  induction entries with
  | nil =>
    intro s now msg hmsg
    simp [StateStore.snapshotToMessages] at hmsg
  | cons pe rest ih =>
    intro s now msg hmsg
    obtain ⟨p, e⟩ := pe
    simp only [StateStore.snapshotToMessages, List.mem_cons] at hmsg
    rcases hmsg with rfl | hmsg
    · exact ⟨e.value, _, _, _, rfl⟩
    · exact ih _ now msg hmsg

/-- Every delivery generated by the snapshot-streaming loop goes to the
subscriber's target and carries a `state` message. -/
theorem streamSnapshots_state (st : RouteTarget) (pats : List String) :
    ∀ (r : Router), ∀ d ∈ (Router.streamSnapshots st r pats).2,
      d.targetId = st.id ∧ d.targetNs = st.ns ∧
        ∃ v stl ow ver, d.msg.payload = .state v stl ow ver := by
  induction pats with
  | nil =>
    intro r d hd
    simp [Router.streamSnapshots] at hd
  | cons pat rest ih =>
    intro r d hd
    simp only [Router.streamSnapshots, List.mem_append] at hd
    rcases hd with hd | hd
    · rw [List.mem_map] at hd
      obtain ⟨msg, hmsg, rfl⟩ := hd
      refine ⟨rfl, rfl, ?_⟩
      exact snapshotToMessages_state _ _ _ msg hmsg
    · exact ih _ d hd

/-- C5: for a subscription request with snapshot requested whose source
has a registered target, routing delivers — in this order — the
`completed` ack carrying the subscriptionId, then one `state` message per
snapshot entry, then the `snapshot_complete` event; and any deliveries
caused by subsequently processed messages (in particular deltas of later
writes) come strictly after, by trace concatenation. -/
theorem C5_snapshot_order (r : Router) (m : Message) (pats : List String)
    (f : Option SubFilter) (st : RouteTarget)
    (hp : m.payload = .subscribe pats f (some true))
    (hst : r.getTargetNs m.source = some st) :
    ∃ r' ack snaps complete,
      r.route m = (r', ⟨st.id, st.ns, ack⟩ :: snaps ++
        [⟨st.id, st.ns, complete⟩]) ∧
      ack.payload = .ack .completed m.id
        (some (.obj [("subscriptionId",
          .str (subIdString (r.subs.idCounter + 1)))])) none ∧
      (∀ d ∈ snaps, d.targetId = st.id ∧ d.targetNs = st.ns ∧
        ∃ v stl ow ver, d.msg.payload = .state v stl ow ver) ∧
      complete.payload = .event "snapshot_complete"
        (some (.obj [("subscriptionId",
          .str (subIdString (r.subs.idCounter + 1)))])) ∧
      (∀ rest, (Router.routeAll r (m :: rest)).2 =
        (⟨st.id, st.ns, ack⟩ :: snaps ++ [⟨st.id, st.ns, complete⟩]) ++
          (Router.routeAll r' rest).2) := by
  have hgets : Router.getTargetNs
      { r with subs := (r.subs.subscribe m.source pats f (some true) r.now).2,
               seq := r.seq + 1 } m.source = some st := hst
  refine ⟨⟨(Router.streamSnapshots st
        { r with subs := (r.subs.subscribe m.source pats f (some true) r.now).2,
                 seq := r.seq + 1 } pats).1.targets,
      (Router.streamSnapshots st
        { r with subs := (r.subs.subscribe m.source pats f (some true) r.now).2,
                 seq := r.seq + 1 } pats).1.store,
      (Router.streamSnapshots st
        { r with subs := (r.subs.subscribe m.source pats f (some true) r.now).2,
                 seq := r.seq + 1 } pats).1.subs.markSnapshotSent
        (r.subs.idCounter + 1),
      (Router.streamSnapshots st
        { r with subs := (r.subs.subscribe m.source pats f (some true) r.now).2,
                 seq := r.seq + 1 } pats).1.seq + 1,
      (Router.streamSnapshots st
        { r with subs := (r.subs.subscribe m.source pats f (some true) r.now).2,
                 seq := r.seq + 1 } pats).1.idem,
      (Router.streamSnapshots st
        { r with subs := (r.subs.subscribe m.source pats f (some true) r.now).2,
                 seq := r.seq + 1 } pats).1.pending,
      (Router.streamSnapshots st
        { r with subs := (r.subs.subscribe m.source pats f (some true) r.now).2,
                 seq := r.seq + 1 } pats).1.enableIdempotency,
      (Router.streamSnapshots st
        { r with subs := (r.subs.subscribe m.source pats f (some true) r.now).2,
                 seq := r.seq + 1 } pats).1.idempotencyTtl,
      (Router.streamSnapshots st
        { r with subs := (r.subs.subscribe m.source pats f (some true) r.now).2,
                 seq := r.seq + 1 } pats).1.now⟩,
    createAck "hub.core" m.source m.path m.id AckStatus.completed
      (some (.obj [("subscriptionId",
        .str (subIdString (r.subs.idCounter + 1)))])) none
      m.correlationId r.seq r.now,
    (Router.streamSnapshots st
      { r with subs := (r.subs.subscribe m.source pats f (some true) r.now).2,
               seq := r.seq + 1 } pats).2,
    ⟨"snapshot-complete-" ++ subIdString (r.subs.idCounter + 1), "hub.core",
      none, "hub.subscriptions",
      .event "snapshot_complete" (some (.obj [("subscriptionId",
        .str (subIdString (r.subs.idCounter + 1)))])),
      (Router.streamSnapshots st
        { r with subs := (r.subs.subscribe m.source pats f (some true) r.now).2,
                 seq := r.seq + 1 } pats).1.now,
      (Router.streamSnapshots st
        { r with subs := (r.subs.subscribe m.source pats f (some true) r.now).2,
                 seq := r.seq + 1 } pats).1.seq,
      none, none, none⟩,
    ?_, rfl, ?_, rfl, ?_⟩
  · simp only [Router.route, hp, Router.handleSubscribe]
    rw [hgets]
    simp [Option.getD, SubscriptionManager.subscribe]
  · exact streamSnapshots_state st pats _
  · intro rest
    rw [routeAll_cons]
    simp only [Router.route, hp, Router.handleSubscribe]
    rw [hgets]
    simp [Option.getD, SubscriptionManager.subscribe]

/-- Witness for C5: subscribing with a snapshot over the preloaded store
delivers ack, snapshot states, then `snapshot_complete`, in that order. -/
theorem C5_snapshot_order_witness :
    ∃ r' ack snaps complete,
      c5Router.route c5Sub = (r', ⟨"c1", "app.ui", ack⟩ :: snaps ++
        [⟨"c1", "app.ui", complete⟩]) ∧
      ack.payload = .ack .completed c5Sub.id
        (some (.obj [("subscriptionId",
          .str (subIdString (c5Router.subs.idCounter + 1)))])) none ∧
      (∀ d ∈ snaps, d.targetId = "c1" ∧ d.targetNs = "app.ui" ∧
        ∃ v stl ow ver, d.msg.payload = .state v stl ow ver) ∧
      complete.payload = .event "snapshot_complete"
        (some (.obj [("subscriptionId",
          .str (subIdString (c5Router.subs.idCounter + 1)))])) ∧
      (∀ rest, (Router.routeAll c5Router (c5Sub :: rest)).2 =
        (⟨"c1", "app.ui", ack⟩ :: snaps ++ [⟨"c1", "app.ui", complete⟩]) ++
          (Router.routeAll r' rest).2) :=
  C5_snapshot_order c5Router c5Sub ["companion.variables.**"] none
    ⟨"c1", "app.ui"⟩ rfl (by decide)

-- ---------------------------------------------------------------------------
-- C1 — idempotent resend
-- ---------------------------------------------------------------------------

/-- C1 (the code evaluated at the failing input): the target's handler is
indeed invoked only once for the two routings of `cmd-1` — but the resend
receives nothing.  Routing `cmd-1`, then the adapter's terminal ack, then
the identical `cmd-1` again: the resend produces an empty delivery trace
(first conjunct) — in particular no second handler invocation and no ack
of any kind to the resender; over the whole scenario the command reaches
a handler exactly once (second conjunct) and the terminal `completed` ack
reaches the client exactly once, for the first routing only (third
conjunct).  The cached terminal result the claim relies on can never
exist: `handleAck` only copies a terminal ack into the idempotency cache
when the `commandId` is in `pendingCommands`, and no router code path
ever inserts into `pendingCommands`. -/
theorem C1_idempotent_resend :
    ((Router.routeAll c1Router [c1Cmd, c1Ack]).1.route c1Cmd).2 = [] ∧
    ((Router.routeAll c1Router [c1Cmd, c1Ack, c1Cmd]).2.filter
      (fun d => d.msg == c1Cmd)).length = 1 ∧
    ((Router.routeAll c1Router [c1Cmd, c1Ack, c1Cmd]).2.filter
      (fun d => d.targetId == "client-1" && d.msg == c1Ack)).length = 1 := by
  decide

-- ---------------------------------------------------------------------------
-- C9 — omitted payload.snapshot
-- ---------------------------------------------------------------------------

/-- `sendError` does not touch the subscription manager. -/
theorem sendError_subs (r : Router) (m : Message) (c e : String) :
    (r.sendError m c e).1.subs = r.subs := by
  unfold Router.sendError
  split <;> rfl

/-- Snapshot streaming does not touch the subscription manager. -/
theorem streamSnapshots_subs (st : RouteTarget) (pats : List String) :
    ∀ r : Router, (Router.streamSnapshots st r pats).1.subs = r.subs := by
  induction pats with
  | nil => intro r; rfl
  | cons p rest ih => intro r; exact ih _

/-- `routeCommand` does not touch the subscription manager. -/
theorem routeCommand_subs (r : Router) (m : Message) :
    (r.routeCommand m).1.subs = r.subs := by
  simp only [Router.routeCommand]
  split
  · split <;> rfl
  · rfl
  · split
    · exact sendError_subs _ _ _ _
    · split
      · split <;> rfl
      · rfl

/-- `routeState` does not touch the subscription manager. -/
theorem routeState_subs (r : Router) (m : Message) :
    (r.routeState m).1.subs = r.subs := by
  simp only [Router.routeState]
  split
  · split
    · exact sendError_subs _ _ _ _
    · rfl
    · rfl
  · rfl

/-- `handleAck` does not touch the subscription manager. -/
theorem handleAck_subs (r : Router) (m : Message) :
    (r.handleAck m).1.subs = r.subs := by
  simp only [Router.handleAck]
  repeat' split
  all_goals rfl

/-- `handleError` does not touch the subscription manager. -/
theorem handleError_subs (r : Router) (m : Message) :
    (r.handleError m).1.subs = r.subs := by
  simp only [Router.handleError]
  split
  · split <;> rfl
  · rfl

/-- One routing step preserves the invariant "subscription `n` (already
allocated: `n ≤ idCounter`) has `snapshotSent = false`": later subscribes
allocate strictly larger ids, so `markSnapshotSent` (which the router
only calls on the id it just allocated) never reaches subscription
`n`. -/
theorem route_inv (r : Router) (m : Message) (n : Nat)
    (h1 : n ≤ r.subs.idCounter)
    (h2 : ∀ sub ∈ r.subs.subs, sub.id = n → sub.snapshotSent = false) :
    n ≤ (r.route m).1.subs.idCounter ∧
      ∀ sub ∈ (r.route m).1.subs.subs, sub.id = n →
        sub.snapshotSent = false := by
  cases hm : m.payload with
  | command a ps =>
    have hs : (r.route m).1.subs = r.subs := by
      simp only [Router.route, hm]
      exact routeCommand_subs r m
    rw [hs]
    exact ⟨h1, h2⟩
  | event e d =>
    have hs : (r.route m).1.subs = r.subs := by
      simp only [Router.route, hm]
      rfl
    rw [hs]
    exact ⟨h1, h2⟩
  | state v stl ow ver =>
    have hs : (r.route m).1.subs = r.subs := by
      simp only [Router.route, hm]
      exact routeState_subs r m
    rw [hs]
    exact ⟨h1, h2⟩
  | ack sts cid res err =>
    have hs : (r.route m).1.subs = r.subs := by
      simp only [Router.route, hm]
      exact handleAck_subs r m
    rw [hs]
    exact ⟨h1, h2⟩
  | error c msg rel =>
    have hs : (r.route m).1.subs = r.subs := by
      simp only [Router.route, hm]
      exact handleError_subs r m
    rw [hs]
    exact ⟨h1, h2⟩
  | unsubscribe pats =>
    have hs : (r.route m).1.subs =
        (r.subs.unsubscribePatterns m.source pats).2 := by
      simp only [Router.route, hm, Router.handleUnsubscribe]
      split <;> rfl
    rw [hs]
    unfold SubscriptionManager.unsubscribePatterns
    refine ⟨h1, ?_⟩
    intro sub hsub hid
    exact h2 sub (List.mem_of_mem_filter hsub) hid
  | subscribe pats f snap =>
    have hbase : ∀ sub ∈ (r.subs.subscribe m.source pats f snap r.now).2.subs,
        sub.id = n → sub.snapshotSent = false := by
      intro sub hsub hid
      unfold SubscriptionManager.subscribe at hsub
      simp only [List.mem_append, List.mem_singleton] at hsub
      rcases hsub with hsub | rfl
      · exact h2 sub hsub hid
      · rfl
    have hcnt : n ≤ (r.subs.subscribe m.source pats f snap r.now).2.idCounter := by
      unfold SubscriptionManager.subscribe
      exact Nat.le_succ_of_le h1
    have hmark : ∀ sub ∈ ((r.subs.subscribe m.source pats f snap
          r.now).2.markSnapshotSent (r.subs.idCounter + 1)).subs,
        sub.id = n → sub.snapshotSent = false := by
      intro sub hsub hid
      unfold SubscriptionManager.markSnapshotSent at hsub
      simp only [List.mem_map] at hsub
      obtain ⟨sub0, hsub0, heq⟩ := hsub
      by_cases hido : (sub0.id == r.subs.idCounter + 1) = true
      · rw [if_pos hido] at heq
        exfalso
        rw [← heq] at hid
        simp only [beq_iff_eq] at hido
        simp only at hid
        omega
      · rw [if_neg hido] at heq
        subst heq
        exact hbase sub0 hsub0 hid
    simp only [Router.route, hm, Router.handleSubscribe]
    cases hst : Router.getTargetNs
        { r with subs := (r.subs.subscribe m.source pats f snap r.now).2,
                 seq := r.seq + 1 } m.source with
    | none =>
      exact ⟨hcnt, hbase⟩
    | some st =>
      dsimp only
      by_cases hsnap : snap.getD false = true
      · rw [if_pos hsnap]
        have hsubs2 : (Router.streamSnapshots st
            { r with subs := (r.subs.subscribe m.source pats f snap r.now).2,
                     seq := r.seq + 1 } pats).1.subs =
            (r.subs.subscribe m.source pats f snap r.now).2 :=
          streamSnapshots_subs st pats _
        constructor
        · show n ≤ ((Router.streamSnapshots st _ pats).1.subs.markSnapshotSent
            _).idCounter
          rw [hsubs2]
          unfold SubscriptionManager.markSnapshotSent
          exact hcnt
        · intro sub hsub hid
          have : sub ∈ ((r.subs.subscribe m.source pats f snap
              r.now).2.markSnapshotSent (r.subs.idCounter + 1)).subs := by
            rw [← hsubs2]
            exact hsub
          exact hmark sub this hid
      · rw [if_neg hsnap]
        exact ⟨hcnt, hbase⟩

/-- The invariant of `route_inv`, iterated over any continuation. -/
theorem routeAll_inv (n : Nat) : ∀ (ms : List Message) (r : Router),
    n ≤ r.subs.idCounter →
    (∀ sub ∈ r.subs.subs, sub.id = n → sub.snapshotSent = false) →
    n ≤ (Router.routeAll r ms).1.subs.idCounter ∧
      ∀ sub ∈ (Router.routeAll r ms).1.subs.subs, sub.id = n →
        sub.snapshotSent = false := by
  intro ms
  induction ms with
  | nil => intro r h1 h2; exact ⟨h1, h2⟩
  | cons m rest ih =>
    intro r h1 h2
    have h := route_inv r m n h1 h2
    exact ih _ h.1 h.2

/-- C9: a subscribe message omitting `payload.snapshot` creates the
subscription with `snapshot = true` (the manager's declared default) and
`snapshotSent = false`, while the router — testing the raw payload field,
which is undefined and falsy — streams no snapshot state messages, emits
no `snapshot_complete` event and never marks the snapshot sent (the only
possible delivery is the completed ack); and under any continuation of
routed messages the subscription's `snapshotSent` flag remains false. -/
theorem C9_snapshot_default (r : Router) (m : Message) (pats : List String)
    (f : Option SubFilter)
    (hp : m.payload = .subscribe pats f none)
    (hwf : ∀ sub ∈ r.subs.subs, sub.id ≤ r.subs.idCounter) :
    (r.route m).1.subs.subs = r.subs.subs ++
      [⟨r.subs.idCounter + 1, m.source, pats, f.getD .all, true, false,
        r.now⟩] ∧
    (∀ d ∈ (r.route m).2, d.msg.payload = .ack .completed m.id
      (some (.obj [("subscriptionId",
        .str (subIdString (r.subs.idCounter + 1)))])) none) ∧
    (∀ rest, ∀ sub ∈ (Router.routeAll (r.route m).1 rest).1.subs.subs,
      sub.id = r.subs.idCounter + 1 → sub.snapshotSent = false) := by
  have hsubs : (r.route m).1.subs =
      (r.subs.subscribe m.source pats f none r.now).2 := by
    simp only [Router.route, hp, Router.handleSubscribe]
    cases hst : Router.getTargetNs
        { r with subs := (r.subs.subscribe m.source pats f none r.now).2,
                 seq := r.seq + 1 } m.source with
    | none => rfl
    | some st =>
      dsimp only
      rw [if_neg (by simp)]
  refine ⟨?_, ?_, ?_⟩
  · rw [hsubs]
    unfold SubscriptionManager.subscribe
    simp [Option.getD]
  · intro d hd
    revert hd
    simp only [Router.route, hp, Router.handleSubscribe]
    cases hst : Router.getTargetNs
        { r with subs := (r.subs.subscribe m.source pats f none r.now).2,
                 seq := r.seq + 1 } m.source with
    | none =>
      intro hd
      simp at hd
    | some st =>
      dsimp only
      rw [if_neg (by simp)]
      intro hd
      simp only [List.mem_singleton] at hd
      subst hd
      simp [createAck, SubscriptionManager.subscribe]
  · intro rest sub hsub hid
    have hh1 : r.subs.idCounter + 1 ≤ (r.route m).1.subs.idCounter := by
      rw [hsubs]
      unfold SubscriptionManager.subscribe
      exact le_rfl
    have hh2 : ∀ sub ∈ (r.route m).1.subs.subs,
        sub.id = r.subs.idCounter + 1 → sub.snapshotSent = false := by
      intro sub0 hsub0 hid0
      rw [hsubs] at hsub0
      unfold SubscriptionManager.subscribe at hsub0
      simp only [List.mem_append, List.mem_singleton] at hsub0
      rcases hsub0 with hsub0 | rfl
      · exfalso
        have := hwf sub0 hsub0
        omega
      · rfl
    exact (routeAll_inv (r.subs.idCounter + 1) rest (r.route m).1 hh1 hh2).2
      sub hsub hid

/-- Witness for C9: the concrete snapshot-less subscribe creates
`sub-1` with `snapshot = true`, delivers at most the completed ack, and
`snapshotSent` stays false under any continuation. -/
theorem C9_snapshot_default_witness :
    (c9Router.route c9Sub).1.subs.subs = c9Router.subs.subs ++
      [⟨c9Router.subs.idCounter + 1, c9Sub.source, ["a.**"],
        (none : Option SubFilter).getD .all, true, false, c9Router.now⟩] ∧
    (∀ d ∈ (c9Router.route c9Sub).2, d.msg.payload = .ack .completed
      c9Sub.id (some (.obj [("subscriptionId",
        .str (subIdString (c9Router.subs.idCounter + 1)))])) none) ∧
    (∀ rest, ∀ sub ∈
        (Router.routeAll (c9Router.route c9Sub).1 rest).1.subs.subs,
      sub.id = c9Router.subs.idCounter + 1 → sub.snapshotSent = false) :=
  C9_snapshot_default c9Router c9Sub ["a.**"] none rfl
    (by intro sub hsub; simp [c9Router] at hsub)

-- ---------------------------------------------------------------------------
-- C7 — self-delivery suppression
-- ---------------------------------------------------------------------------

/-- C7: fan-out never returns a message to its originating namespace:
event delivery skips every target whose namespace equals the event's
source, and state-delta delivery skips every target whose namespace
equals the delta entry's owner. -/
theorem C7_no_self_delivery (r : Router) :
    (∀ m e dta, m.payload = .event e dta →
      ∀ dl ∈ (r.route m).2, dl.targetNs ≠ m.source) ∧
    (∀ delta : StateDelta,
      ∀ dl ∈ (r.handleStateDelta delta).2, dl.targetNs ≠ delta.entry.owner) := by
  constructor
  · intro m e dta hp dl hdl
    simp only [Router.route, hp, Router.routeEvent] at hdl
    rw [List.mem_filterMap] at hdl
    obtain ⟨cid, -, hf⟩ := hdl
    split at hf
    · split at hf
      · exact Option.noConfusion hf
      · rename_i t hft hns
        injection hf with hf
        subst hf
        simpa using hns
    · exact Option.noConfusion hf
  · intro delta dl hdl
    simp only [Router.handleStateDelta] at hdl
    rw [List.mem_filterMap] at hdl
    obtain ⟨cid, -, hf⟩ := hdl
    split at hf
    · split at hf
      · exact Option.noConfusion hf
      · rename_i t hft hns
        injection hf with hf
        subst hf
        simpa using hns
    · exact Option.noConfusion hf

/-- Witness for C7: the `app.x` event and the `app.x`-owned delta are
delivered to no target in namespace `app.x`. -/
theorem C7_no_self_delivery_witness :
    (∀ dl ∈ (c7Router.route c7Event).2, dl.targetNs ≠ c7Event.source) ∧
    (∀ dl ∈ (c7Router.handleStateDelta c7Delta).2,
      dl.targetNs ≠ c7Delta.entry.owner) :=
  ⟨(C7_no_self_delivery c7Router).1 c7Event "tick" none rfl,
   (C7_no_self_delivery c7Router).2 c7Delta⟩

/-- Witness for C6: the concrete command to unregistered `ghost.dev` is
answered with `UNKNOWN_TARGET` and dispatched nowhere, and the registered
`companion` target resolves for target namespace `companion.satellite` by
prefix trimming. -/
theorem C6_resolution_witness :
    (c6Router.findTarget "ghost.dev" =
        (resolutionChain "ghost.dev").findSome? c6Router.getTargetNs ∧
      (c6Router.findTarget "ghost.dev" = none →
        (c6Router.route c6Msg).1 = { c6Router with seq := c6Router.seq + 1 } ∧
        (∀ d ∈ (c6Router.route c6Msg).2,
          d.msg.payload = .error "UNKNOWN_TARGET"
            ("Unknown target: " ++ "ghost.dev") (some c6Msg.id) ∧
          d.msg.target = some c6Msg.source ∧ d.msg ≠ c6Msg) ∧
        (∀ st, c6Router.getTargetNs c6Msg.source = some st →
          (c6Router.route c6Msg).2 = [⟨st.id, st.ns,
            createError "hub.core" (some c6Msg.source) c6Msg.path
              "UNKNOWN_TARGET" ("Unknown target: " ++ "ghost.dev")
              (some c6Msg.id) c6Msg.correlationId
              c6Router.seq c6Router.now⟩]))) ∧
    c6Router.findTarget "companion.satellite" =
      some ⟨"adapter-1", "companion"⟩ :=
  ⟨C6_resolution c6Router c6Msg "press" none "ghost.dev" rfl rfl
      (fun _ k hk => Option.noConfusion hk),
    by decide⟩

-- ---------------------------------------------------------------------------
-- C8 — adapter ack discipline
-- ---------------------------------------------------------------------------

/-- C8 (counterexample): with the socket not open, a valid press command
sends no wire frame (`sendSatelliteCommand` returns `false`) — yet the
adapter still acks `completed`, contradicting the claim that a completed
ack is emitted exactly when the frame was successfully sent. -/
theorem C8_counterexample :
    (Adapter.handleBridgeMessage id c8Adapter c8Press).2.1 = [] ∧
    (Adapter.handleBridgeMessage id c8Adapter c8Press).2.2 =
      [createAck adapterNs "app.ui" "companion" "c8" AckStatus.completed
        none none none 0 0] := by
  decide

/-- C8 (amended): for every action the companion adapter handles —
press, release, rotate, setVariable, getVariable, clearKeys — missing
required params yield a failed ack with `INVALID_MESSAGE` and no frame,
a missing capability yields a failed ack with `ADAPTER_ERROR` and no
frame, and an unknown action yields a failed ack with `ADAPTER_ERROR`
and no frame; but a command that passes its parameter and capability
checks is acked `completed` unconditionally — the boolean result of
`sendSatelliteCommand` is ignored, so the completed ack is emitted even
when the socket is not open and no KEY-PRESS / KEY-ROTATE /
VARIABLE-VALUE / KEYS-CLEAR frame was sent (frames go out exactly when
the socket is open, last conjunct). -/
theorem C8_acks (enc : String → String) (a : Adapter) (m : Message)
    (action : String) (params : Option (List (String × Val)))
    (hp : m.payload = .command action params) :
    (action ∉ (["press", "release", "rotate", "setVariable", "getVariable",
        "clearKeys"] : List String) →
      Adapter.handleBridgeMessage enc a m =
        ({ a with seq := a.seq + 1 }, [],
          [createAck adapterNs m.source m.path m.id .failed none
            (some ("ADAPTER_ERROR", "Unknown action: " ++ action))
            m.correlationId a.seq a.now])) ∧
    (action = "press" → pGet params "keyIndex" = none →
      (pGet params "page" = none ∨ pGet params "bank" = none) →
      Adapter.handleBridgeMessage enc a m =
        ({ a with seq := a.seq + 1 }, [],
          [createAck adapterNs m.source m.path m.id .failed none
            (some ("INVALID_MESSAGE",
              "Missing keyIndex or page/bank parameters"))
            m.correlationId a.seq a.now])) ∧
    (action = "release" → pGet params "keyIndex" = none →
      (pGet params "page" = none ∨ pGet params "bank" = none) →
      Adapter.handleBridgeMessage enc a m =
        ({ a with seq := a.seq + 1 }, [],
          [createAck adapterNs m.source m.path m.id .failed none
            (some ("INVALID_MESSAGE",
              "Missing keyIndex or page/bank parameters"))
            m.correlationId a.seq a.now])) ∧
    (action = "press" → ∀ ki, pGet params "keyIndex" = some ki →
      Adapter.handleBridgeMessage enc a m =
        ({ a with seq := a.seq + 1 },
          a.sendSatelliteCommand "KEY-PRESS"
            [a.deviceId, valToArg ki, "PRESSED"],
          [createAck adapterNs m.source m.path m.id .completed none none
            m.correlationId a.seq a.now])) ∧
    (action = "release" → ∀ ki, pGet params "keyIndex" = some ki →
      Adapter.handleBridgeMessage enc a m =
        ({ a with seq := a.seq + 1 },
          a.sendSatelliteCommand "KEY-PRESS"
            [a.deviceId, valToArg ki, "RELEASED"],
          [createAck adapterNs m.source m.path m.id .completed none none
            m.correlationId a.seq a.now])) ∧
    (action = "press" → pGet params "keyIndex" = none →
      ∀ pv bv, pGet params "page" = some pv → pGet params "bank" = some bv →
      Adapter.handleBridgeMessage enc a m =
        ({ a with seq := a.seq + 1 },
          a.sendSatelliteCommand "KEY-PRESS"
            [a.deviceId, pageBankArg pv bv, "PRESSED"],
          [createAck adapterNs m.source m.path m.id .completed none none
            m.correlationId a.seq a.now])) ∧
    (action = "release" → pGet params "keyIndex" = none →
      ∀ pv bv, pGet params "page" = some pv → pGet params "bank" = some bv →
      Adapter.handleBridgeMessage enc a m =
        ({ a with seq := a.seq + 1 },
          a.sendSatelliteCommand "KEY-PRESS"
            [a.deviceId, pageBankArg pv bv, "RELEASED"],
          [createAck adapterNs m.source m.path m.id .completed none none
            m.correlationId a.seq a.now])) ∧
    (action = "rotate" → a.capabilities.supportsRotation = false →
      Adapter.handleBridgeMessage enc a m =
        ({ a with seq := a.seq + 1 }, [],
          [createAck adapterNs m.source m.path m.id .failed none
            (some ("ADAPTER_ERROR",
              "Rotation not supported by this Companion instance"))
            m.correlationId a.seq a.now])) ∧
    (action = "rotate" → a.capabilities.supportsRotation = true →
      (jsTruthy (pGet params "keyIndex") = false ∨
        jsTruthy (pGet params "direction") = false) →
      Adapter.handleBridgeMessage enc a m =
        ({ a with seq := a.seq + 1 }, [],
          [createAck adapterNs m.source m.path m.id .failed none
            (some ("INVALID_MESSAGE",
              "Missing keyIndex or direction parameters"))
            m.correlationId a.seq a.now])) ∧
    (action = "rotate" → a.capabilities.supportsRotation = true →
      jsTruthy (pGet params "keyIndex") = true →
      jsTruthy (pGet params "direction") = true →
      Adapter.handleBridgeMessage enc a m =
        ({ a with seq := a.seq + 1 },
          a.sendSatelliteCommand "KEY-ROTATE"
            [a.deviceId, valToArg ((pGet params "keyIndex").getD vNull),
              if pGet params "direction" == some (vStr "left") then "-1"
              else "1"],
          [createAck adapterNs m.source m.path m.id .completed none none
            m.correlationId a.seq a.now])) ∧
    (action = "setVariable" → a.capabilities.supportsVariableWrite = false →
      Adapter.handleBridgeMessage enc a m =
        ({ a with seq := a.seq + 1 }, [],
          [createAck adapterNs m.source m.path m.id .failed none
            (some ("ADAPTER_ERROR", "Variable write not supported"))
            m.correlationId a.seq a.now])) ∧
    (action = "setVariable" → a.capabilities.supportsVariableWrite = true →
      (jsTruthy (pGet params "name") = false ∨ pGet params "value" = none) →
      Adapter.handleBridgeMessage enc a m =
        ({ a with seq := a.seq + 1 }, [],
          [createAck adapterNs m.source m.path m.id .failed none
            (some ("INVALID_MESSAGE", "Missing name or value parameters"))
            m.correlationId a.seq a.now])) ∧
    (action = "setVariable" → a.capabilities.supportsVariableWrite = true →
      jsTruthy (pGet params "name") = true →
      ∀ v, pGet params "value" = some v →
      Adapter.handleBridgeMessage enc a m =
        ({ a with seq := a.seq + 1 },
          a.sendSatelliteCommand "VARIABLE-VALUE"
            [valToArg ((pGet params "name").getD vNull) ++ "=" ++
              enc (valToArg v)],
          [createAck adapterNs m.source m.path m.id .completed none none
            m.correlationId a.seq a.now])) ∧
    (action = "getVariable" → jsTruthy (pGet params "name") = false →
      Adapter.handleBridgeMessage enc a m =
        ({ a with seq := a.seq + 1 }, [],
          [createAck adapterNs m.source m.path m.id .failed none
            (some ("INVALID_MESSAGE", "Missing name parameter"))
            m.correlationId a.seq a.now])) ∧
    (action = "getVariable" → jsTruthy (pGet params "name") = true →
      Adapter.handleBridgeMessage enc a m =
        ({ a with seq := a.seq + 1 }, [],
          [createAck adapterNs m.source m.path m.id .completed
            (some (.obj [("name",
                .str (valToArg ((pGet params "name").getD vNull))),
              ("value",
                match mapGet a.variablesCache
                    (valToArg ((pGet params "name").getD vNull)) with
                | some s => .str s
                | none => .null)]))
            none m.correlationId a.seq a.now])) ∧
    (action = "clearKeys" →
      Adapter.handleBridgeMessage enc a m =
        ({ a with keyCacheKeys := [], seq := a.seq + 1 },
          a.sendSatelliteCommand "KEYS-CLEAR" [a.deviceId],
          [createAck adapterNs m.source m.path m.id .completed none none
            m.correlationId a.seq a.now])) ∧
    (a.wsOpen = false → ∀ cmd args, a.sendSatelliteCommand cmd args = []) := by
  refine ⟨?_, ?_, ?_, ?_, ?_, ?_, ?_, ?_, ?_, ?_, ?_, ?_, ?_, ?_, ?_, ?_, ?_⟩
  · intro hn
    simp only [Adapter.handleBridgeMessage, hp]
    split
    · exact absurd (by simp) hn
    · exact absurd (by simp) hn
    · exact absurd (by simp) hn
    · exact absurd (by simp) hn
    · exact absurd (by simp) hn
    · exact absurd (by simp) hn
    · simp [Adapter.failedAck]
  · intro ha hki hpb
    subst ha
    simp only [Adapter.handleBridgeMessage, hp, Adapter.handlePressCommand,
      hki]
    rcases hpb with hpg | hbk
    · rw [hpg]
      simp [Adapter.failedAck]
    · cases hpg : pGet params "page" with
      | none =>
        rw [hbk]
        simp [Adapter.failedAck]
      | some pv =>
        rw [hbk]
        simp [Adapter.failedAck]
  · intro ha hki hpb
    subst ha
    simp only [Adapter.handleBridgeMessage, hp, Adapter.handlePressCommand,
      hki]
    rcases hpb with hpg | hbk
    · rw [hpg]
      simp [Adapter.failedAck]
    · cases hpg : pGet params "page" with
      | none =>
        rw [hbk]
        simp [Adapter.failedAck]
      | some pv =>
        rw [hbk]
        simp [Adapter.failedAck]
  · intro ha ki hki
    subst ha
    simp only [Adapter.handleBridgeMessage, hp, Adapter.handlePressCommand,
      hki]
    simp [Adapter.completedAck]
  · intro ha ki hki
    subst ha
    simp only [Adapter.handleBridgeMessage, hp, Adapter.handlePressCommand,
      hki]
    simp [Adapter.completedAck]
  · intro ha hki pv bv hpg hbk
    subst ha
    simp only [Adapter.handleBridgeMessage, hp, Adapter.handlePressCommand,
      hki, hpg, hbk]
    simp [Adapter.completedAck]
  · intro ha hki pv bv hpg hbk
    subst ha
    simp only [Adapter.handleBridgeMessage, hp, Adapter.handlePressCommand,
      hki, hpg, hbk]
    simp [Adapter.completedAck]
  · intro ha hcap
    subst ha
    simp only [Adapter.handleBridgeMessage, hp, Adapter.handleRotateCommand]
    simp [hcap, Adapter.failedAck]
  · intro ha hcap hdisj
    subst ha
    simp only [Adapter.handleBridgeMessage, hp, Adapter.handleRotateCommand]
    rcases hdisj with h | h <;> simp [hcap, h, Adapter.failedAck]
  · intro ha hcap hki hdir
    subst ha
    simp only [Adapter.handleBridgeMessage, hp, Adapter.handleRotateCommand]
    simp [hcap, hki, hdir, Adapter.completedAck]
  · intro ha hcap
    subst ha
    simp only [Adapter.handleBridgeMessage, hp,
      Adapter.handleSetVariableCommand]
    simp [hcap, Adapter.failedAck]
  · intro ha hcap hdisj
    subst ha
    simp only [Adapter.handleBridgeMessage, hp,
      Adapter.handleSetVariableCommand]
    rcases hdisj with h | h <;> simp [hcap, h, Adapter.failedAck]
  · intro ha hcap hname v hval
    subst ha
    simp only [Adapter.handleBridgeMessage, hp,
      Adapter.handleSetVariableCommand]
    simp [hcap, hname, hval, Adapter.completedAck]
  · intro ha hname
    subst ha
    simp only [Adapter.handleBridgeMessage, hp,
      Adapter.handleGetVariableCommand]
    simp [hname, Adapter.failedAck]
  · intro ha hname
    subst ha
    simp only [Adapter.handleBridgeMessage, hp,
      Adapter.handleGetVariableCommand]
    simp [hname, Adapter.completedAck]
  · intro ha
    subst ha
    simp only [Adapter.handleBridgeMessage, hp,
      Adapter.handleClearKeysCommand]
    simp [Adapter.completedAck]
  · intro hws cmd args
    simp [Adapter.sendSatelliteCommand, hws]

/-- Witness for C8 (amended): the concrete closed-socket adapter acks a
valid press `completed` even though no wire frame can go out, and sends
no frame for any command while the socket is closed. -/
theorem C8_acks_witness :
    Adapter.handleBridgeMessage id c8Adapter c8Press =
      ({ c8Adapter with seq := c8Adapter.seq + 1 },
        c8Adapter.sendSatelliteCommand "KEY-PRESS"
          [c8Adapter.deviceId, valToArg (vNum 5), "PRESSED"],
        [createAck adapterNs c8Press.source c8Press.path c8Press.id
          .completed none none c8Press.correlationId c8Adapter.seq
          c8Adapter.now]) ∧
    (c8Adapter.wsOpen = false → ∀ cmd args,
      c8Adapter.sendSatelliteCommand cmd args = []) := by
  obtain ⟨h1, h2, h3, h4, h5, h6, h7, h8, h9, h10, h11, h12, h13, h14, h15,
      h16, h17⟩ :=
    C8_acks id c8Adapter c8Press "press" (some [("keyIndex", vNum 5)]) rfl
  exact ⟨h4 rfl (vNum 5) rfl, h17⟩

-- ---------------------------------------------------------------------------
-- C10 — rotate rejects keyIndex 0
-- ---------------------------------------------------------------------------

/-- C10: with the ROTATION capability present, a rotate command whose
params are `keyIndex: 0` and a direction string is rejected with a failed
`INVALID_MESSAGE` ack and no `KEY-ROTATE` frame, because the
`!params?.keyIndex` presence check is a truthiness test and `0` is falsy
— whereas a press command with `keyIndex: 0` (checked with
`!== undefined`) is accepted and acked `completed`. -/
theorem C10_rotate_zero (enc : String → String) (a : Adapter) (m : Message)
    (params : List (String × Val))
    (hrot : a.capabilities.supportsRotation = true)
    (hp : m.payload = .command "rotate" (some params))
    (hki : mapGet params "keyIndex" = some (vNum 0))
    (_hd : mapGet params "direction" = some (vStr "left") ∨
          mapGet params "direction" = some (vStr "right")) :
    Adapter.handleBridgeMessage enc a m =
      ({ a with seq := a.seq + 1 }, [],
        [createAck adapterNs m.source m.path m.id .failed none
          (some ("INVALID_MESSAGE", "Missing keyIndex or direction parameters"))
          m.correlationId a.seq a.now]) ∧
    (∀ mp ps2, mp.payload = .command "press" (some ps2) →
      mapGet ps2 "keyIndex" = some (vNum 0) →
      Adapter.handleBridgeMessage enc a mp =
        ({ a with seq := a.seq + 1 },
          a.sendSatelliteCommand "KEY-PRESS"
            [a.deviceId, valToArg (vNum 0), "PRESSED"],
          [createAck adapterNs mp.source mp.path mp.id .completed none none
            mp.correlationId a.seq a.now])) := by
  constructor
  · simp only [Adapter.handleBridgeMessage, hp, Adapter.handleRotateCommand,
      hrot, pGet, Option.bind, hki]
    simp [jsTruthy, vNum, Adapter.failedAck]
  · intro mp ps2 hp2 hki2
    simp only [Adapter.handleBridgeMessage, hp2, Adapter.handlePressCommand,
      pGet, Option.bind, hki2]
    simp [Adapter.completedAck]

/-- Witness for C10: the concrete rotate with `keyIndex: 0,
direction: "left"` on a rotation-capable, connected adapter is rejected
with `INVALID_MESSAGE` and no frame, while the press with `keyIndex: 0`
is acked `completed`. -/
theorem C10_rotate_zero_witness :
    Adapter.handleBridgeMessage id c10Adapter c10Rotate =
      ({ c10Adapter with seq := c10Adapter.seq + 1 }, [],
        [createAck adapterNs c10Rotate.source c10Rotate.path c10Rotate.id
          .failed none
          (some ("INVALID_MESSAGE", "Missing keyIndex or direction parameters"))
          c10Rotate.correlationId c10Adapter.seq c10Adapter.now]) ∧
    Adapter.handleBridgeMessage id c10Adapter c10Press =
      ({ c10Adapter with seq := c10Adapter.seq + 1 },
        c10Adapter.sendSatelliteCommand "KEY-PRESS"
          [c10Adapter.deviceId, valToArg (vNum 0), "PRESSED"],
        [createAck adapterNs c10Press.source c10Press.path c10Press.id
          .completed none none c10Press.correlationId c10Adapter.seq
          c10Adapter.now]) :=
  ⟨(C10_rotate_zero id c10Adapter c10Rotate
      [("keyIndex", vNum 0), ("direction", vStr "left")] rfl rfl (by decide)
      (Or.inl (by decide))).1,
   (C10_rotate_zero id c10Adapter c10Rotate
      [("keyIndex", vNum 0), ("direction", vStr "left")] rfl rfl (by decide)
      (Or.inl (by decide))).2 c10Press [("keyIndex", vNum 0)] rfl
      (by decide)⟩

end Bridge
